import Mathlib

/-!
Shallow embedding of the retroactive-payroll core of `src/src/App.jsx`
(the period-aware revision: `FACTORS` at line 501, `getDaysInMonth`,
`getPeriods`, `calculateRetroactive`, lines 509-732).

Modelling conventions:
* JavaScript numbers are modelled as exact rationals (`ℚ`); the decimal
  literals 1.25/1.75/2.05/2.55/0.35 become the exact rationals they denote.
* Date components obtained from `parseDate` are integers or `none`
  (JS `NaN` / `undefined`); every comparison against `none` is `false`,
  exactly as every JS comparison against `NaN`/`undefined` is false.
* `Math.round x` is `⌊x + 1/2⌋` (JS rounds half toward +∞).
* Numeric record fields (`parseFloat(..) || 0`) are modelled as
  `Option ℚ`, where `none` stands for a missing or non-numeric cell and
  `Option.getD 0` is the `|| 0` defaulting.
* The `while` loop of `getPeriods` does not terminate when the parsed
  start month is `NaN` and the start year is below the end year (the
  month index stays `NaN`, never exceeds 11, so the year never advances
  while `currentY < eY` keeps the loop running); the embedding returns
  `Option (List Period)` with `none` on exactly that path.
-/

/-- JS `Math.round`: round half toward +∞. -/
def jsRound (x : ℚ) : ℤ := ⌊x + 1/2⌋

/-- Gregorian leap year, as computed by the JS `Date` calendar. -/
def isLeap (y : ℤ) : Bool :=
  (Int.emod y 4 == 0 && !(Int.emod y 100 == 0)) || Int.emod y 400 == 0

/-- Number of days of calendar month `m ∈ [1,12]` of year `y`. -/
def monthLength (y m : ℤ) : ℤ :=
  if m = 2 then (if isLeap y then 29 else 28)
  else if m = 4 ∨ m = 6 ∨ m = 9 ∨ m = 11 then 30 else 31

/-- `getDaysInMonth = (year, month) => new Date(year, month + 1, 0).getDate()`
(line 509): days of the 0-indexed `month` of `year`, with the JS `Date`
month-overflow normalization (month `12` is January of `year + 1`, etc.). -/
def getDaysInMonth (year month : ℤ) : ℤ :=
  let total := year * 12 + month
  monthLength (Int.ediv total 12) (Int.emod total 12 + 1)

/-- JS `x > c` where `x` may be `NaN`/`undefined` (`none`): false then. -/
def jsGt (x : Option ℤ) (c : ℤ) : Bool :=
  match x with
  | some v => decide (c < v)
  | none => false

/-- JS `x < c` where `x` may be `NaN`/`undefined` (`none`): false then. -/
def jsLt (x : Option ℤ) (c : ℤ) : Bool :=
  match x with
  | some v => decide (v < c)
  | none => false

/-- JS `x <= y` where `y` may be `NaN`/`undefined` (`none`): false then. -/
def jsLe (x : ℤ) (y : Option ℤ) : Bool :=
  match y with
  | some v => decide (x ≤ v)
  | none => false

/-- JS `Number(component)` for one date component, restricted to the
shapes that occur in date strings: a digit string denotes its value,
the empty string denotes `0` (JS `Number('') = 0`), anything else is
`NaN` (`none`). -/
def jsNumComp (s : String) : Option ℤ :=
  if s = "" then some 0
  else
    match s.toNat? with
    | some n => some (n : ℤ)
    | none => none

/-- The `parseDate` helper of `getPeriods` (lines 523-538): returns the
`[year, month, day]` triple.  A hyphenated string is `YYYY-MM-DD` when
its first component exceeds 1000, else it is read as `DD-MM-YYYY`; a
slashed string is `DD/MM/YYYY`; anything else is `[0, 0, 0]`.  Missing
components (`parts[i]` = `undefined`) behave like `NaN` and are `none`. -/
def parseDate (str : String) : Option ℤ × Option ℤ × Option ℤ :=
  if str.contains '-' then
    let parts := (str.splitOn "-").map jsNumComp
    if jsGt (parts.getD 0 none) 1000 then
      (parts.getD 0 none, parts.getD 1 none, parts.getD 2 none)
    else
      (parts.getD 2 none, parts.getD 1 none, parts.getD 0 none)
  else if str.contains '/' then
    let parts := (str.splitOn "/").map jsNumComp
    (parts.getD 2 none, parts.getD 1 none, parts.getD 0 none)
  else (some 0, some 0, some 0)

/-- Payroll cycle (`'mensual' | 'quincenal'`). -/
inductive PayrollType where
  | mensual
  | quincenal
deriving DecidableEq, Repr

/-- A closed accounting period as produced by `getPeriods`: the source
stores it as `{start: "Y-MM-DD", end: "Y-MM-DD"}` where both strings
share the same year `currentY` and month `currentM + 1`; the embedding
keeps the four numeric components (`m` is the printed, 1-indexed
month). -/
structure Period where
  y : ℤ
  m : ℤ
  d1 : ℤ
  d2 : ℤ
deriving DecidableEq, Repr

/-- Guard of the month-walking `while` loop (line 555):
`currentY < eY || (currentY === eY && currentM <= endMonthIndex)`. -/
def loopCond (eY : ℤ) (eMi : Option ℤ) (Y M : ℤ) : Bool :=
  decide (Y < eY) || (decide (Y = eY) && jsLe M eMi)

/-- Termination measure for the month walk. -/
def walkMeasure (eY Y M : ℤ) : ℕ :=
  (eY + 1 - Y).toNat * 13 + (11 - M).toNat

/-- Periods contributed by the visited month `(Y, M)` (`M` 0-indexed),
lines 561-598.  `sMi` is `startMonthIndex`; `eMi` is `endMonthIndex`
(possibly `NaN`); `sD?`/`eD?` are the parsed start/end days. -/
def monthPeriods (t : PayrollType) (sY sMi : ℤ) (sD? : Option ℤ)
    (eY : ℤ) (eMi : Option ℤ) (eD? : Option ℤ) (Y M : ℤ) : List Period :=
  let dim := getDaysInMonth Y M
  match t with
  | .mensual =>
    let startClash := decide (Y = sY) && decide (M = sMi) && jsGt sD? 1
    let endClash := decide (Y = eY) && decide (eMi = some M) && jsLt eD? dim
    if startClash || endClash then [] else [⟨Y, M + 1, 1, dim⟩]
  | .quincenal =>
    let q1Bad := (decide (Y = sY) && decide (M = sMi) && jsGt sD? 1)
      || (decide (Y = eY) && decide (eMi = some M) && jsLt eD? 15)
    let q2Bad := (decide (Y = sY) && decide (M = sMi) && jsGt sD? 16)
      || (decide (Y = eY) && decide (eMi = some M) && jsLt eD? dim)
    (if q1Bad then [] else [⟨Y, M + 1, 1, 15⟩])
      ++ (if q2Bad then [] else [⟨Y, M + 1, 16, dim⟩])

/-- The month-walking `while` loop (lines 550-606), for an integer month
index: run `f` on each visited month, advancing `currentM` and wrapping
into the next year after month index 11. -/
def monthWalk (f : ℤ → ℤ → List Period) (eY : ℤ) (eMi : Option ℤ)
    (Y M : ℤ) : List Period :=
  if h : loopCond eY eMi Y M = true then
    f Y M ++
      (if 11 < M + 1 then monthWalk f eY eMi (Y + 1) 0
       else monthWalk f eY eMi Y (M + 1))
  else []
termination_by walkMeasure eY Y M
decreasing_by
  · simp only [loopCond, Bool.or_eq_true, Bool.and_eq_true,
      decide_eq_true_eq] at h
    have hy : Y ≤ eY := by rcases h with h | ⟨h, _⟩ <;> omega
    simp only [walkMeasure]
    omega
  · simp only [loopCond, Bool.or_eq_true, Bool.and_eq_true,
      decide_eq_true_eq] at h
    have hy : Y ≤ eY := by rcases h with h | ⟨h, _⟩ <;> omega
    simp only [walkMeasure]
    omega

/-- `getPeriods(startStr, endStr, type)` (lines 519-609).  Yields `none`
exactly when the source loop never returns (parsed start month is
`NaN`/missing while `sY < eY`); otherwise `some` of the period list. -/
def getPeriods (startStr endStr : String) (t : PayrollType) :
    Option (List Period) :=
  if startStr = "" ∨ endStr = "" then some []
  else
    match parseDate startStr, parseDate endStr with
    | (some sY, sM?, sD?), (some eY, eM?, eD?) =>
      if sY = 0 ∨ eY = 0 then some []
      else
        let eMi := eM?.map (fun x => x - 1)
        match sM? with
        | some sM =>
          some (monthWalk (monthPeriods t sY (sM - 1) sD? eY eMi eD?)
            eY eMi sY (sM - 1))
        | none => if sY < eY then none else some []
    | _, _ => some []

/-- `getPeriods` specialised to fully parsed integer date components
(year, 1-indexed month, day of each endpoint), as produced by
`parseDate` on a parseable date string. -/
def getPeriodsP (sY sM sD eY eM eD : ℤ) (t : PayrollType) : List Period :=
  monthWalk (monthPeriods t sY (sM - 1) (some sD) eY (some (eM - 1)) (some eD))
    eY (some (eM - 1)) sY (sM - 1)

/-- JS `String(n).padStart(2, '0')` for an integer component. -/
def pad2 (n : ℤ) : String :=
  let s := toString n
  if s.length < 2 then "0" ++ s else s

/-- The report date `DD/MM/YYYY` built at lines 669-670: the period's
internal start string `Y-MM-DD` is split and reassembled as
`pD/pM/pY`.  (All reachable periods have `y ≥ 1`, so the year part of
the internal string carries no extra hyphen.) -/
def fmtDMY (p : Period) : String :=
  pad2 p.d1 ++ "/" ++ pad2 p.m ++ "/" ++ toString p.y

/-- JS `String(q)` for a worked-hours quantity, faithful for integral
quantities (fractional quantities would print decimally in JS; no claim
depends on that string). -/
def jsQtyStr (q : ℚ) : String :=
  if q.den = 1 then toString q.num else toString q

/-- One input record as consumed by `calculateRetroactive` (lines
611-732).  Numeric cells are `Option ℚ` (`none` = missing or
non-numeric, defaulted to 0 by `parseFloat(..) || 0`); the two date
cells stay strings and go to `getPeriods` unparsed.  `RN_CANTIDAD`
exists in records of the earlier revision's formula set but is never
read by the period-aware calculation. -/
structure InputRecord where
  CEDULA : String
  NOMBRE : String
  CODIGO_FICHA_COLABORADOR : Option String
  SUELDO_ANTERIOR : Option ℚ
  SUELDO_NUEVO : Option ℚ
  FECHA_INICIO : String
  FECHA_FIN : String
  HED_CANTIDAD : Option ℚ
  HEN_CANTIDAD : Option ℚ
  HEFD_CANTIDAD : Option ℚ
  HEFN_CANTIDAD : Option ℚ
  RN_CANTIDAD : Option ℚ
deriving DecidableEq, Repr

/-- One itemized payment line (pushed into `details`). -/
structure DetailLine where
  CEDULA : String
  NOMBRE : String
  CONCEPTO : String
  DETALLE : String
  VALOR_A_PAGAR : ℤ
deriving DecidableEq, Repr

/-- One summary row (lines 672-686).  Field names map 1:1 onto the
export headers: `periodo` = `'Comprobante - Período'`, `salario` =
`'Devengos Prestacionales - Salario'`, `xxValor`/`xxCantidad` = the
`'Devengos Prestacionales - …'` / `'Comprobante - …'` pair of each
overtime category. -/
structure SummaryRow where
  periodo : String
  nombreCompleto : String
  numeroDocumento : String
  codigoFicha : String
  salario : ℤ
  hefdValor : ℤ
  hefdCantidad : ℚ
  hedValor : ℤ
  hedCantidad : ℚ
  henValor : ℤ
  henCantidad : ℚ
  hefnValor : ℤ
  hefnCantidad : ℚ
deriving DecidableEq, Repr

/-- The fixed factor set (line 501-507 of the period-aware revision). -/
structure FactorSet where
  HED : ℚ
  HEN : ℚ
  HEFD : ℚ
  HEFN : ℚ
  RN : ℚ
deriving DecidableEq, Repr

/-- `FACTORS = {HED: 1.25, HEN: 1.75, HEFD: 2.05, HEFN: 2.55, RN: 0.35}`. -/
def FACTORS : FactorSet :=
  { HED := 5/4, HEN := 7/4, HEFD := 41/20, HEFN := 51/20, RN := 7/20 }

/-- One entry of the `otMapping` array (lines 632-661): the record field
it reads, its factor, its concept label, and the write of its two
summary columns. -/
structure OtSpec where
  getQty : InputRecord → Option ℚ
  factor : ℚ
  label : String
  setVal : SummaryRow → ℤ → ℚ → SummaryRow

/-- `otMapping[0]`: day overtime (`HED`). -/
def hedSpec : OtSpec where
  getQty := fun d => d.HED_CANTIDAD
  factor := FACTORS.HED
  label := "Retroactivo HE diurna"
  setVal := fun s v q => { s with hedValor := v, hedCantidad := q }

/-- `otMapping[1]`: night overtime (`HEN`). -/
def henSpec : OtSpec where
  getQty := fun d => d.HEN_CANTIDAD
  factor := FACTORS.HEN
  label := "Retroactivo HE nocturna"
  setVal := fun s v q => { s with henValor := v, henCantidad := q }

/-- `otMapping[2]`: holiday day overtime (`HEFD`). -/
def hefdSpec : OtSpec where
  getQty := fun d => d.HEFD_CANTIDAD
  factor := FACTORS.HEFD
  label := "Retroactivo HE festiva diurna"
  setVal := fun s v q => { s with hefdValor := v, hefdCantidad := q }

/-- `otMapping[3]`: holiday night overtime (`HEFN`). -/
def hefnSpec : OtSpec where
  getQty := fun d => d.HEFN_CANTIDAD
  factor := FACTORS.HEFN
  label := "Retroactivo HE festiva nocturna"
  setVal := fun s v q => { s with hefnValor := v, hefnCantidad := q }

/-- The `otMapping` array (lines 632-661). -/
def otMapping : List OtSpec := [hedSpec, henSpec, hefdSpec, hefnSpec]

/-- The salary detail line pushed at lines 693-699. -/
def salaryLine (data : InputRecord) (v : ℤ) (p : Period) : DetailLine :=
  { CEDULA := data.CEDULA
    NOMBRE := data.NOMBRE
    CONCEPTO := "Retroactivo sueldo"
    DETALLE := "Periodo " ++ fmtDMY p
    VALOR_A_PAGAR := v }

/-- The all-zero summary row created for a period (lines 672-686). -/
def baseRow (data : InputRecord) (p : Period) : SummaryRow :=
  { periodo := fmtDMY p
    nombreCompleto := data.NOMBRE
    numeroDocumento := data.CEDULA
    codigoFicha := data.CODIGO_FICHA_COLABORADOR.getD ""
    salario := 0
    hefdValor := 0
    hefdCantidad := 0
    hedValor := 0
    hedCantidad := 0
    henValor := 0
    henCantidad := 0
    hefnValor := 0
    hefnCantidad := 0 }

/-- One step of the `otMapping.forEach` at lines 704-725, threading the
(details so far, summary row) pair. -/
def otStep (data : InputRecord) (hourlyDiff : ℚ) (acc : List DetailLine × SummaryRow)
    (spec : OtSpec) : List DetailLine × SummaryRow :=
  let qty := (spec.getQty data).getD 0
  if 0 < qty then
    let value := hourlyDiff * spec.factor * qty
    if 0 < value then
      let roundedVal := jsRound value
      (acc.1 ++
        [{ CEDULA := data.CEDULA
           NOMBRE := data.NOMBRE
           CONCEPTO := spec.label
           DETALLE := jsQtyStr qty ++ " horas"
           VALOR_A_PAGAR := roundedVal }],
        spec.setVal acc.2 roundedVal qty)
    else acc
  else acc

/-- Rows produced for one period (`periods.forEach` body, lines
667-729): the salary line and salary summary field when the per-period
salary amount is positive, and on the first period (`index === 0`) the
overtime pass over `otMapping`. -/
def calcPeriod (data : InputRecord) (retroSalaryPerPeriod hourlyDiff : ℚ)
    (isFirst : Bool) (p : Period) : List DetailLine × SummaryRow :=
  let s0 := baseRow data p
  let ds :=
    if 0 < retroSalaryPerPeriod then
      [salaryLine data (jsRound retroSalaryPerPeriod) p]
    else []
  let s1 :=
    if 0 < retroSalaryPerPeriod then
      { s0 with salario := jsRound retroSalaryPerPeriod }
    else s0
  if isFirst then otMapping.foldl (otStep data hourlyDiff) (ds, s1) else (ds, s1)

/-- The `periods.forEach` of lines 667-729 over the whole period list:
`isFirst` tracks `index === 0`. -/
def calcRows (data : InputRecord) (retroSalaryPerPeriod hourlyDiff : ℚ) :
    Bool → List Period → List DetailLine × List SummaryRow
  | _, [] => ([], [])
  | isFirst, p :: rest =>
    let pr := calcPeriod data retroSalaryPerPeriod hourlyDiff isFirst p
    let r := calcRows data retroSalaryPerPeriod hourlyDiff false rest
    (pr.1 ++ r.1, pr.2 :: r.2)

/-- `calculateRetroactive(data, payrollType)` (lines 611-732).  `none`
when `getPeriods` never returns (see `getPeriods`); otherwise the
`{details, summaries}` pair. -/
def calculateRetroactive (data : InputRecord) (payrollType : PayrollType) :
    Option (List DetailLine × List SummaryRow) :=
  match getPeriods data.FECHA_INICIO data.FECHA_FIN payrollType with
  | none => none
  | some periods =>
    if periods.isEmpty then some ([], [])
    else
      let oldSalary := data.SUELDO_ANTERIOR.getD 0
      let newSalary := data.SUELDO_NUEVO.getD 0
      let baseDiff := newSalary - oldSalary
      let salaryFactor : ℚ := if payrollType = PayrollType.mensual then 1 else 1/2
      let retroSalaryPerPeriod := baseDiff * salaryFactor
      let hourlyDiff := baseDiff / 240
      some (calcRows data retroSalaryPerPeriod hourlyDiff true periods)

/-- The detail lines contributed by one entry of the overtime pass
(lines 705-722), in isolation. -/
def otDetail (data : InputRecord) (hourlyDiff : ℚ) (spec : OtSpec) :
    List DetailLine :=
  let qty := (spec.getQty data).getD 0
  if 0 < qty then
    let value := hourlyDiff * spec.factor * qty
    if 0 < value then
      [{ CEDULA := data.CEDULA
         NOMBRE := data.NOMBRE
         CONCEPTO := spec.label
         DETALLE := jsQtyStr qty ++ " horas"
         VALOR_A_PAGAR := jsRound value }]
    else []
  else []

/-- The summary-row effect of one entry of the overtime pass (lines
705-714), in isolation. -/
def otSum (data : InputRecord) (hourlyDiff : ℚ) (s : SummaryRow)
    (spec : OtSpec) : SummaryRow :=
  let qty := (spec.getQty data).getD 0
  if 0 < qty then
    let value := hourlyDiff * spec.factor * qty
    if 0 < value then spec.setVal s (jsRound value) qty else s
  else s

/-- The salary detail lines of one period (lines 689-700): one line when
the per-period salary amount is positive, none otherwise. -/
def salaryDetails (data : InputRecord) (retroSalaryPerPeriod : ℚ)
    (p : Period) : List DetailLine :=
  if 0 < retroSalaryPerPeriod then
    [salaryLine data (jsRound retroSalaryPerPeriod) p]
  else []

/-- One period's summary row after the salary step (lines 689-692):
the zero row, with the salary field set when the per-period amount is
positive. -/
def salarySummary (data : InputRecord) (retroSalaryPerPeriod : ℚ)
    (p : Period) : SummaryRow :=
  if 0 < retroSalaryPerPeriod then
    { baseRow data p with salario := jsRound retroSalaryPerPeriod }
  else baseRow data p

/-- Detail-line concept selector. -/
def isConcept (c : String) (l : DetailLine) : Bool := l.CONCEPTO == c

/-- Statement form of the per-category overtime rule of claim C1: the
category's detail line appears (exactly once, anywhere in `ds`) iff its
parsed quantity and its computed amount are positive, with amount
`round((newSalary - previousSalary) / 240 * factor * qty)`; the
category's two summary columns are set on the first summary row under
the same condition and stay zero on every later row. -/
def otEmission (data : InputRecord) (ds : List DetailLine)
    (ss : List SummaryRow) (qty? : Option ℚ) (factor : ℚ) (label : String)
    (fval : SummaryRow → ℤ) (fqty : SummaryRow → ℚ) : Prop :=
  let delta := data.SUELDO_NUEVO.getD 0 - data.SUELDO_ANTERIOR.getD 0
  let qty := qty?.getD 0
  let v := delta / 240 * factor * qty
  (ds.filter (isConcept label) =
    if 0 < qty ∧ 0 < v then
      [{ CEDULA := data.CEDULA, NOMBRE := data.NOMBRE, CONCEPTO := label,
         DETALLE := jsQtyStr qty ++ " horas", VALOR_A_PAGAR := jsRound v }]
    else []) ∧
  (∀ s ∈ ss.head?,
    fval s = (if 0 < qty ∧ 0 < v then jsRound v else 0) ∧
    fqty s = (if 0 < qty ∧ 0 < v then qty else 0)) ∧
  (∀ s ∈ ss.tail, fval s = 0 ∧ fqty s = 0)

/-- Strict chronological order on nominal dates `(year, month, day)`. -/
def dateLt (y1 m1 d1 y2 m2 d2 : ℤ) : Prop :=
  y1 < y2 ∨ (y1 = y2 ∧ (m1 < m2 ∨ (m1 = m2 ∧ d1 < d2)))

/-- `p` ends strictly before `q` starts: ordering plus non-overlap of
two periods. -/
def perOrd (p q : Period) : Prop :=
  dateLt p.y p.m p.d2 q.y q.m q.d1

theorem getDaysInMonth_bounds (year month : ℤ) :
    28 ≤ getDaysInMonth year month ∧ getDaysInMonth year month ≤ 31 := by
  unfold getDaysInMonth monthLength
  dsimp only
  split_ifs <;> omega

theorem loopCond_iff (eY : ℤ) (eMi : Option ℤ) (Y M : ℤ) :
    loopCond eY eMi Y M = true ↔
      Y < eY ∨ (Y = eY ∧ ∃ em, eMi = some em ∧ M ≤ em) := by
  cases eMi <;>
    simp [loopCond, jsLe, Bool.or_eq_true, Bool.and_eq_true, decide_eq_true_eq]

theorem monthWalk_eq (f : ℤ → ℤ → List Period) (eY : ℤ) (eMi : Option ℤ)
    (Y M : ℤ) :
    monthWalk f eY eMi Y M =
      if loopCond eY eMi Y M = true then
        f Y M ++
          (if 11 < M + 1 then monthWalk f eY eMi (Y + 1) 0
           else monthWalk f eY eMi Y (M + 1))
      else [] := by
  rw [monthWalk]
  by_cases hc : loopCond eY eMi Y M = true <;> simp [hc]

theorem monthWalk_ind (eY : ℤ) (eMi : Option ℤ) (motive : ℤ → ℤ → Prop)
    (base : ∀ Y M, ¬loopCond eY eMi Y M = true → motive Y M)
    (step : ∀ Y M, loopCond eY eMi Y M = true →
      motive (if 11 < M + 1 then Y + 1 else Y) (if 11 < M + 1 then 0 else M + 1) →
      motive Y M) :
    ∀ Y M, motive Y M := by
  have key : ∀ n Y M, walkMeasure eY Y M = n → motive Y M := by
    intro n
    induction n using Nat.strong_induction_on with
    | _ n ih =>
      intro Y M hn
      by_cases hc : loopCond eY eMi Y M = true
      · refine step Y M hc ?_
        have hy : Y ≤ eY := by
          rw [loopCond_iff] at hc
          rcases hc with h | ⟨h, _⟩ <;> omega
        have hdec : walkMeasure eY (if 11 < M + 1 then Y + 1 else Y)
            (if 11 < M + 1 then 0 else M + 1) < n := by
          subst hn
          split_ifs with hm <;> (simp only [walkMeasure]; omega)
        exact ih _ hdec _ _ rfl
      · exact base Y M hc
  exact fun Y M => key (walkMeasure eY Y M) Y M rfl

theorem monthWalk_mem_exists (f : ℤ → ℤ → List Period) (eY : ℤ)
    (eMi : Option ℤ) :
    ∀ Y M p, p ∈ monthWalk f eY eMi Y M → ∃ Y' M', p ∈ f Y' M' := by
  refine monthWalk_ind eY eMi
    (fun Y M => ∀ p, p ∈ monthWalk f eY eMi Y M → ∃ Y' M', p ∈ f Y' M') ?_ ?_
  · intro Y M hc p hp
    rw [monthWalk_eq, if_neg hc] at hp
    simp at hp
  · intro Y M hc ih p hp
    rw [monthWalk_eq, if_pos hc] at hp
    rcases List.mem_append.mp hp with hp | hp
    · exact ⟨Y, M, hp⟩
    · by_cases hm : 11 < M + 1
      · rw [if_pos hm] at hp
        rw [if_pos hm, if_pos hm] at ih
        exact ih p hp
      · rw [if_neg hm] at hp
        rw [if_neg hm, if_neg hm] at ih
        exact ih p hp

theorem monthWalk_month_lb (f : ℤ → ℤ → List Period) (eY : ℤ)
    (eMi : Option ℤ)
    (hf : ∀ Y M p, p ∈ f Y M → p.y = Y ∧ p.m = M + 1) :
    ∀ Y M q, q ∈ monthWalk f eY eMi Y M →
      Y < q.y ∨ (Y = q.y ∧ M + 1 ≤ q.m) := by
  refine monthWalk_ind eY eMi
    (fun Y M => ∀ q, q ∈ monthWalk f eY eMi Y M →
      Y < q.y ∨ (Y = q.y ∧ M + 1 ≤ q.m)) ?_ ?_
  · intro Y M hc q hq
    rw [monthWalk_eq, if_neg hc] at hq
    simp at hq
  · intro Y M hc ih q hq
    rw [monthWalk_eq, if_pos hc] at hq
    rcases List.mem_append.mp hq with hq | hq
    · obtain ⟨h1, h2⟩ := hf Y M q hq
      omega
    · by_cases hm : 11 < M + 1
      · rw [if_pos hm] at hq
        rw [if_pos hm, if_pos hm] at ih
        rcases ih q hq with h | ⟨h, _⟩ <;> omega
      · rw [if_neg hm] at hq
        rw [if_neg hm, if_neg hm] at ih
        rcases ih q hq with h | ⟨h, h2⟩ <;> omega

theorem monthWalk_chain (f : ℤ → ℤ → List Period) (eY : ℤ)
    (eMi : Option ℤ)
    (hf : ∀ Y M p, p ∈ f Y M → p.y = Y ∧ p.m = M + 1)
    (hchain : ∀ Y M, List.Chain' perOrd (f Y M)) :
    ∀ Y M, List.Chain' perOrd (monthWalk f eY eMi Y M) := by
  refine monthWalk_ind eY eMi
    (fun Y M => List.Chain' perOrd (monthWalk f eY eMi Y M)) ?_ ?_
  · intro Y M hc
    rw [monthWalk_eq, if_neg hc]
    exact List.chain'_nil
  · intro Y M hc ih
    rw [monthWalk_eq, if_pos hc]
    refine List.chain'_append.mpr ⟨hchain Y M, ?_, ?_⟩
    · by_cases hm : 11 < M + 1
      · rw [if_pos hm]; rw [if_pos hm, if_pos hm] at ih; exact ih
      · rw [if_neg hm]; rw [if_neg hm, if_neg hm] at ih; exact ih
    · intro x hx q hq
      obtain ⟨hlast, rfl⟩ := List.mem_getLast?_eq_getLast hx
      obtain ⟨hx1, hx2⟩ := hf Y M _ (List.getLast_mem hlast)
      have hq' : Y < q.y ∨ (Y = q.y ∧ M + 2 ≤ q.m) := by
        by_cases hm : 11 < M + 1
        · rw [if_pos hm] at hq
          have := monthWalk_month_lb f eY eMi hf (Y + 1) 0 q
            (List.mem_of_mem_head? hq)
          rcases this with h | ⟨h, h2⟩ <;> omega
        · rw [if_neg hm] at hq
          have := monthWalk_month_lb f eY eMi hf Y (M + 1) q
            (List.mem_of_mem_head? hq)
          rcases this with h | ⟨h, h2⟩ <;> omega
      unfold perOrd dateLt
      rw [hx1, hx2]
      rcases hq' with h | ⟨h, h2⟩
      · exact Or.inl h
      · exact Or.inr ⟨h, Or.inl (by omega)⟩

theorem monthWalk_mem_canon (f : ℤ → ℤ → List Period) (eY em : ℤ)
    (hem0 : 0 ≤ em) (hem1 : em < 12) :
    ∀ Y M, 0 ≤ M → M < 12 → ∀ p,
      (p ∈ monthWalk f eY (some em) Y M ↔
        ∃ Y' M', 0 ≤ M' ∧ M' < 12 ∧ 12 * Y + M ≤ 12 * Y' + M' ∧
          12 * Y' + M' ≤ 12 * eY + em ∧ p ∈ f Y' M') := by
  refine monthWalk_ind eY (some em)
    (fun Y M => 0 ≤ M → M < 12 → ∀ p,
      (p ∈ monthWalk f eY (some em) Y M ↔
        ∃ Y' M', 0 ≤ M' ∧ M' < 12 ∧ 12 * Y + M ≤ 12 * Y' + M' ∧
          12 * Y' + M' ≤ 12 * eY + em ∧ p ∈ f Y' M')) ?_ ?_
  · intro Y M hc hM0 hM1 p
    rw [monthWalk_eq, if_neg hc]
    rw [loopCond_iff] at hc
    push_neg at hc
    obtain ⟨hc1, hc2⟩ := hc
    constructor
    · intro hp; simp at hp
    · rintro ⟨Y', M', h1, h2, h3, h4, _⟩
      exfalso
      rcases lt_or_eq_of_le hc1 with h | h
      · omega
      · subst h
        have := hc2 rfl em rfl
        omega
  · intro Y M hc ih hM0 hM1 p
    have hkey : 12 * Y + M ≤ 12 * eY + em := by
      rw [loopCond_iff] at hc
      rcases hc with h | ⟨h, em', hem', hle⟩
      · omega
      · rw [Option.some.injEq] at hem'
        omega
    rw [monthWalk_eq, if_pos hc, List.mem_append]
    by_cases hm : 11 < M + 1
    · have hM : M = 11 := by omega
      rw [if_pos hm]
      rw [if_pos hm, if_pos hm] at ih
      rw [ih (by omega) (by omega) p]
      constructor
      · rintro (hp | ⟨Y', M', h1, h2, h3, h4, hp⟩)
        · exact ⟨Y, M, hM0, hM1, by omega, hkey, hp⟩
        · exact ⟨Y', M', h1, h2, by omega, h4, hp⟩
      · rintro ⟨Y', M', h1, h2, h3, h4, hp⟩
        by_cases heq : 12 * Y' + M' = 12 * Y + M
        · have hY : Y' = Y := by omega
          have hM' : M' = M := by omega
          subst hY; subst hM'
          exact Or.inl hp
        · exact Or.inr ⟨Y', M', h1, h2, by omega, h4, hp⟩
    · rw [if_neg hm]
      rw [if_neg hm, if_neg hm] at ih
      rw [ih (by omega) (by omega) p]
      constructor
      · rintro (hp | ⟨Y', M', h1, h2, h3, h4, hp⟩)
        · exact ⟨Y, M, hM0, hM1, by omega, hkey, hp⟩
        · exact ⟨Y', M', h1, h2, by omega, h4, hp⟩
      · rintro ⟨Y', M', h1, h2, h3, h4, hp⟩
        by_cases heq : 12 * Y' + M' = 12 * Y + M
        · have hY : Y' = Y := by omega
          have hM' : M' = M := by omega
          subst hY; subst hM'
          exact Or.inl hp
        · exact Or.inr ⟨Y', M', h1, h2, by omega, h4, hp⟩

theorem monthPeriods_shape (t : PayrollType) (sY sMi : ℤ) (sD? : Option ℤ)
    (eY : ℤ) (eMi : Option ℤ) (eD? : Option ℤ) :
    ∀ Y M p, p ∈ monthPeriods t sY sMi sD? eY eMi eD? Y M →
      p.y = Y ∧ p.m = M + 1 := by
  intro Y M p hp
  cases t <;> simp only [monthPeriods] at hp
  · split_ifs at hp <;> simp at hp
    subst hp; exact ⟨rfl, rfl⟩
  · rw [List.mem_append] at hp
    rcases hp with hp | hp <;> split_ifs at hp <;> simp at hp <;>
      (subst hp; exact ⟨rfl, rfl⟩)

theorem monthPeriods_days (t : PayrollType) (sY sMi : ℤ) (sD? : Option ℤ)
    (eY : ℤ) (eMi : Option ℤ) (eD? : Option ℤ) :
    ∀ Y M p, p ∈ monthPeriods t sY sMi sD? eY eMi eD? Y M →
      1 ≤ p.d1 ∧ p.d1 ≤ p.d2 := by
  intro Y M p hp
  have hdim := getDaysInMonth_bounds Y M
  cases t <;> simp only [monthPeriods] at hp
  · split_ifs at hp <;> simp at hp
    subst hp; constructor <;> simp <;> omega
  · rw [List.mem_append] at hp
    rcases hp with hp | hp <;> split_ifs at hp <;> simp at hp <;>
      (subst hp; constructor <;> simp <;> omega)

theorem monthPeriods_chain (t : PayrollType) (sY sMi : ℤ) (sD? : Option ℤ)
    (eY : ℤ) (eMi : Option ℤ) (eD? : Option ℤ) :
    ∀ Y M, List.Chain' perOrd (monthPeriods t sY sMi sD? eY eMi eD? Y M) := by
  intro Y M
  cases t <;> simp only [monthPeriods]
  · split_ifs <;> simp
  · split_ifs <;> simp [perOrd, dateLt]

theorem monthPeriods_halves (sY sMi : ℤ) (sD? : Option ℤ)
    (eY : ℤ) (eMi : Option ℤ) (eD? : Option ℤ) :
    ∀ Y M p, p ∈ monthPeriods PayrollType.quincenal sY sMi sD? eY eMi eD? Y M →
      (p.d1 = 1 ∧ p.d2 = 15) ∨
        (p.d1 = 16 ∧ p.d2 = getDaysInMonth p.y (p.m - 1)) := by
  intro Y M p hp
  simp only [monthPeriods] at hp
  rw [List.mem_append] at hp
  rcases hp with hp | hp <;> split_ifs at hp <;> simp at hp <;> subst hp
  · left; exact ⟨rfl, rfl⟩
  · right
    refine ⟨rfl, ?_⟩
    simp

theorem mem_monthPeriods_mensual (sY sMi sd eY : ℤ) (eMi : Option ℤ)
    (ed : ℤ) (Y M : ℤ) (p : Period) :
    p ∈ monthPeriods PayrollType.mensual sY sMi (some sd) eY eMi (some ed) Y M ↔
      p = ⟨Y, M + 1, 1, getDaysInMonth Y M⟩ ∧
        ¬(Y = sY ∧ M = sMi ∧ 1 < sd) ∧
        ¬(Y = eY ∧ eMi = some M ∧ ed < getDaysInMonth Y M) := by
  simp only [monthPeriods, jsGt, jsLt, Bool.or_eq_true, Bool.and_eq_true,
    decide_eq_true_eq]
  split_ifs with h
  · simp only [List.not_mem_nil, false_iff]
    rintro ⟨rfl, h1, h2⟩
    rcases h with ⟨⟨ha, hb⟩, hcc⟩ | ⟨⟨ha, hb⟩, hcc⟩
    · exact h1 ⟨ha, hb, hcc⟩
    · exact h2 ⟨ha, hb, hcc⟩
  · push_neg at h
    simp only [List.mem_singleton]
    constructor
    · intro hp
      refine ⟨hp, ?_, ?_⟩
      · rintro ⟨ha, hb, hcc⟩
        exact absurd hcc (by simpa using h.1 ⟨ha, hb⟩)
      · rintro ⟨ha, hb, hcc⟩
        exact absurd hcc (by simpa using h.2 ⟨ha, hb⟩)
    · rintro ⟨hp, _, _⟩
      exact hp

theorem mem_monthPeriods_quincenal (sY sMi sd eY : ℤ) (eMi : Option ℤ)
    (ed : ℤ) (Y M : ℤ) (p : Period) :
    p ∈ monthPeriods PayrollType.quincenal sY sMi (some sd) eY eMi (some ed) Y M ↔
      (p = ⟨Y, M + 1, 1, 15⟩ ∧
        ¬((Y = sY ∧ M = sMi ∧ 1 < sd) ∨ (Y = eY ∧ eMi = some M ∧ ed < 15))) ∨
      (p = ⟨Y, M + 1, 16, getDaysInMonth Y M⟩ ∧
        ¬((Y = sY ∧ M = sMi ∧ 16 < sd) ∨
          (Y = eY ∧ eMi = some M ∧ ed < getDaysInMonth Y M))) := by
  simp only [monthPeriods, jsGt, jsLt, Bool.or_eq_true, Bool.and_eq_true,
    decide_eq_true_eq, List.mem_append]
  constructor
  · rintro (hp | hp) <;> split_ifs at hp with h <;> simp at hp <;> subst hp
    · left
      refine ⟨rfl, ?_⟩
      rintro (⟨ha, hb, hcc⟩ | ⟨ha, hb, hcc⟩) <;> exact h (by tauto)
    · right
      refine ⟨rfl, ?_⟩
      rintro (⟨ha, hb, hcc⟩ | ⟨ha, hb, hcc⟩) <;> exact h (by tauto)
  · rintro (⟨rfl, hno⟩ | ⟨rfl, hno⟩)
    · left
      rw [if_neg (by tauto)]
      simp
    · right
      rw [if_neg (by tauto)]
      simp

theorem getPeriodsP_mensual_mem (sY sM sD eY eM eD : ℤ)
    (hsM1 : 1 ≤ sM) (hsM2 : sM ≤ 12) (heM1 : 1 ≤ eM) (heM2 : eM ≤ 12) :
    ∀ p, p ∈ getPeriodsP sY sM sD eY eM eD PayrollType.mensual ↔
      ∃ Y M, 1 ≤ M ∧ M ≤ 12 ∧
        12 * sY + sM ≤ 12 * Y + M ∧ 12 * Y + M ≤ 12 * eY + eM ∧
        p = ⟨Y, M, 1, getDaysInMonth Y (M - 1)⟩ ∧
        (Y = sY ∧ M = sM → sD ≤ 1) ∧
        (Y = eY ∧ M = eM → getDaysInMonth Y (M - 1) ≤ eD) := by
  intro p
  unfold getPeriodsP
  rw [monthWalk_mem_canon _ eY (eM - 1) (by omega) (by omega) sY (sM - 1)
    (by omega) (by omega) p]
  constructor
  · rintro ⟨Y', M', h1, h2, h3, h4, hp⟩
    rw [mem_monthPeriods_mensual] at hp
    obtain ⟨hpe, hns, hne⟩ := hp
    have hM'eq : M' + 1 - 1 = M' := by omega
    refine ⟨Y', M' + 1, by omega, by omega, by omega, by omega, ?_, ?_, ?_⟩
    · rw [hpe, hM'eq]
    · rintro ⟨ha, hb⟩
      by_contra hlt
      exact hns ⟨ha, by omega, by omega⟩
    · rintro ⟨ha, hb⟩
      rw [hM'eq]
      by_contra hlt
      refine hne ⟨ha, ?_, ?_⟩
      · rw [Option.some.injEq]; omega
      · omega
  · rintro ⟨Y, M, h1, h2, h3, h4, hpe, hstart, hend⟩
    have hMeq : M - 1 + 1 = M := by omega
    refine ⟨Y, M - 1, by omega, by omega, by omega, by omega, ?_⟩
    rw [mem_monthPeriods_mensual]
    refine ⟨?_, ?_, ?_⟩
    · rw [hpe, hMeq]
    · rintro ⟨ha, hb, hcc⟩
      have := hstart ⟨ha, by omega⟩
      omega
    · rintro ⟨ha, hb, hcc⟩
      rw [Option.some.injEq] at hb
      have := hend ⟨ha, by omega⟩
      omega

theorem getPeriodsP_quincenal_mem (sY sM sD eY eM eD : ℤ)
    (hsM1 : 1 ≤ sM) (hsM2 : sM ≤ 12) (heM1 : 1 ≤ eM) (heM2 : eM ≤ 12) :
    ∀ p, p ∈ getPeriodsP sY sM sD eY eM eD PayrollType.quincenal ↔
      ∃ Y M, 1 ≤ M ∧ M ≤ 12 ∧
        12 * sY + sM ≤ 12 * Y + M ∧ 12 * Y + M ≤ 12 * eY + eM ∧
        ((p = ⟨Y, M, 1, 15⟩ ∧
            ¬((Y = sY ∧ M = sM ∧ 1 < sD) ∨ (Y = eY ∧ M = eM ∧ eD < 15))) ∨
         (p = ⟨Y, M, 16, getDaysInMonth Y (M - 1)⟩ ∧
            ¬((Y = sY ∧ M = sM ∧ 16 < sD) ∨
              (Y = eY ∧ M = eM ∧ eD < getDaysInMonth Y (M - 1))))) := by
  intro p
  unfold getPeriodsP
  rw [monthWalk_mem_canon _ eY (eM - 1) (by omega) (by omega) sY (sM - 1)
    (by omega) (by omega) p]
  constructor
  · rintro ⟨Y', M', h1, h2, h3, h4, hp⟩
    rw [mem_monthPeriods_quincenal] at hp
    have hM'eq : M' + 1 - 1 = M' := by omega
    refine ⟨Y', M' + 1, by omega, by omega, by omega, by omega, ?_⟩
    rcases hp with ⟨hpe, hno⟩ | ⟨hpe, hno⟩
    · left
      refine ⟨hpe, ?_⟩
      rintro (⟨ha, hb, hcc⟩ | ⟨ha, hb, hcc⟩)
      · exact hno (Or.inl ⟨ha, by omega, hcc⟩)
      · exact hno (Or.inr ⟨ha, by rw [Option.some.injEq]; omega, hcc⟩)
    · right
      rw [hM'eq]
      refine ⟨hpe, ?_⟩
      rintro (⟨ha, hb, hcc⟩ | ⟨ha, hb, hcc⟩)
      · exact hno (Or.inl ⟨ha, by omega, hcc⟩)
      · exact hno (Or.inr ⟨ha, by rw [Option.some.injEq]; omega, hcc⟩)
  · rintro ⟨Y, M, h1, h2, h3, h4, hp⟩
    refine ⟨Y, M - 1, by omega, by omega, by omega, by omega, ?_⟩
    rw [mem_monthPeriods_quincenal]
    have hMeq : M - 1 + 1 = M := by omega
    rcases hp with ⟨hpe, hno⟩ | ⟨hpe, hno⟩
    · left
      rw [hMeq]
      refine ⟨hpe, ?_⟩
      rintro (⟨ha, hb, hcc⟩ | ⟨ha, hb, hcc⟩)
      · exact hno (Or.inl ⟨ha, by omega, hcc⟩)
      · rw [Option.some.injEq] at hb
        exact hno (Or.inr ⟨ha, by omega, hcc⟩)
    · right
      rw [hMeq]
      refine ⟨hpe, ?_⟩
      rintro (⟨ha, hb, hcc⟩ | ⟨ha, hb, hcc⟩)
      · exact hno (Or.inl ⟨ha, by omega, hcc⟩)
      · rw [Option.some.injEq] at hb
        exact hno (Or.inr ⟨ha, by omega, hcc⟩)

theorem getPeriods_eq_parsed (startStr endStr : String) (t : PayrollType)
    (sY sM sD eY eM eD : ℤ)
    (h1 : ¬startStr = "") (h2 : ¬endStr = "")
    (hs : parseDate startStr = (some sY, some sM, some sD))
    (he : parseDate endStr = (some eY, some eM, some eD))
    (hsY : ¬sY = 0) (heY : ¬eY = 0) :
    getPeriods startStr endStr t = some (getPeriodsP sY sM sD eY eM eD t) := by
  unfold getPeriods getPeriodsP
  rw [if_neg (by simp [h1, h2]), hs, he]
  simp [hsY, heY]

theorem perOrd_trans_mid (p q r : Period) (hq : q.d1 ≤ q.d2)
    (h1 : perOrd p q) (h2 : perOrd q r) : perOrd p r := by
  unfold perOrd dateLt at h1 h2 ⊢
  omega

theorem chain'_pairwise_perOrd :
    ∀ l : List Period, List.Chain' perOrd l → (∀ q ∈ l, q.d1 ≤ q.d2) →
      List.Pairwise perOrd l := by
  intro l
  induction l with
  | nil => intro _ _; exact List.Pairwise.nil
  | cons x l ih =>
    intro hc hd
    rw [List.chain'_cons'] at hc
    have hp := ih hc.2 (fun q hq => hd q (List.mem_cons_of_mem _ hq))
    refine List.Pairwise.cons ?_ hp
    intro q hq
    cases l with
    | nil => simp at hq
    | cons hh t =>
      have hxh : perOrd x hh := hc.1 hh rfl
      rcases List.mem_cons.mp hq with rfl | hq
      · exact hxh
      · exact perOrd_trans_mid x hh q
          (hd hh (by simp)) hxh ((List.pairwise_cons.mp hp).1 q hq)

theorem getPeriods_result (startStr endStr : String) (t : PayrollType)
    (ps : List Period) (h : getPeriods startStr endStr t = some ps) :
    ps = [] ∨ ∃ sY sMi sD? eY eMi eD?,
      ps = monthWalk (monthPeriods t sY sMi sD? eY eMi eD?) eY eMi sY sMi := by
  unfold getPeriods at h
  split at h
  · left; simpa using h.symm
  · split at h
    · split at h
      · left; simpa using h.symm
      · split at h
        · right
          exact ⟨_, _, _, _, _, _, by simpa using h.symm⟩
        · split at h
          · simp at h
          · left; simpa using h.symm
    · left; simpa using h.symm

set_option maxRecDepth 8000 in
/-- C4: The spec claims `segment`/`calculate` terminate and return a
well-formed result for every pair of input strings.  The code does not:
with start `"2020-xx-01"` (month component non-numeric, so `NaN`) and
end `"2021-01-01"`, the `while` loop's month index stays `NaN`, never
exceeds 11, the year never advances, and `currentY < eY` keeps the loop
running forever; the embedding returns `none` (no result) on exactly
that path. -/
theorem C4_segment_diverges :
    getPeriods "2020-xx-01" "2021-01-01" PayrollType.mensual = none ∧
    getPeriods "2020-xx-01" "2021-01-01" PayrollType.quincenal = none ∧
    calculateRetroactive
      { CEDULA := "1", NOMBRE := "Ana", CODIGO_FICHA_COLABORADOR := none,
        SUELDO_ANTERIOR := some 1000000, SUELDO_NUEVO := some 1100000,
        FECHA_INICIO := "2020-xx-01", FECHA_FIN := "2021-01-01",
        HED_CANTIDAD := some 10, HEN_CANTIDAD := none,
        HEFD_CANTIDAD := none, HEFN_CANTIDAD := none, RN_CANTIDAD := none }
      PayrollType.mensual = none := by
  refine ⟨?_, ?_, ?_⟩ <;> (with_unfolding_all decide)

set_option maxRecDepth 8000 in
/-- C2 counterexample: the claim requires the end day to *equal* the end
month's actual last day, but the code only rejects `eD < daysInMonth`.
For start `2024-02-01`, end `2024-02-31` (a parseable but
calendar-invalid date: February 2024 ends on day 29 ≠ 31), the claim
demands an empty result, yet the code emits the February period. -/
theorem C2_counterexample :
    getPeriods "2024-02-01" "2024-02-31" PayrollType.mensual =
      some [⟨2024, 2, 1, 29⟩] ∧
    ¬(31 : ℤ) = getDaysInMonth 2024 1 := by
  refine ⟨?_, by decide⟩
  with_unfolding_all decide

/-- C2 (amended): for parseable dates (integer components, months in
1..12) under the Monthly cycle, `segment` emits the period
`[1, last calendar day]` of a visited month (start month to end month
inclusive, by 12·year+month position) iff: when it is the start month
the start day is ≤ 1, and when it is the end month the end day is ≥
that month's actual last day (the code compares with `<`/`>`, not
equality); months strictly between always qualify. -/
theorem C2_monthly_full_cover (sY sM sD eY eM eD : ℤ)
    (hsM1 : 1 ≤ sM) (hsM2 : sM ≤ 12) (heM1 : 1 ≤ eM) (heM2 : eM ≤ 12) :
    ∀ p, p ∈ getPeriodsP sY sM sD eY eM eD PayrollType.mensual ↔
      ∃ Y M, 1 ≤ M ∧ M ≤ 12 ∧
        12 * sY + sM ≤ 12 * Y + M ∧ 12 * Y + M ≤ 12 * eY + eM ∧
        p = ⟨Y, M, 1, getDaysInMonth Y (M - 1)⟩ ∧
        (Y = sY ∧ M = sM → sD ≤ 1) ∧
        (Y = eY ∧ M = eM → getDaysInMonth Y (M - 1) ≤ eD) :=
  getPeriodsP_mensual_mem sY sM sD eY eM eD hsM1 hsM2 heM1 heM2

theorem C2_monthly_full_cover_witness :
    Period.mk 2024 1 1 31 ∈ getPeriodsP 2024 1 1 2024 2 29 PayrollType.mensual := by
  have h := C2_monthly_full_cover 2024 1 1 2024 2 29
    (by decide) (by decide) (by decide) (by decide)
  exact (h ⟨2024, 1, 1, 31⟩).mpr
    ⟨2024, 1, by decide, by decide, by decide, by decide, by decide,
      by decide, by decide⟩

/-- C3: for parseable dates (integer components, months in 1..12) under
the SemiMonthly cycle, `segment` independently evaluates the two halves
of each visited month: the first half `[1, 15]` is emitted unless
(start month ∧ start day > 1) or (end month ∧ end day < 15), and the
second half `[16, last day]` unless (start month ∧ start day > 16) or
(end month ∧ end day < that month's last day). -/
theorem C3_semimonthly_halves (sY sM sD eY eM eD : ℤ)
    (hsM1 : 1 ≤ sM) (hsM2 : sM ≤ 12) (heM1 : 1 ≤ eM) (heM2 : eM ≤ 12) :
    ∀ p, p ∈ getPeriodsP sY sM sD eY eM eD PayrollType.quincenal ↔
      ∃ Y M, 1 ≤ M ∧ M ≤ 12 ∧
        12 * sY + sM ≤ 12 * Y + M ∧ 12 * Y + M ≤ 12 * eY + eM ∧
        ((p = ⟨Y, M, 1, 15⟩ ∧
            ¬((Y = sY ∧ M = sM ∧ 1 < sD) ∨ (Y = eY ∧ M = eM ∧ eD < 15))) ∨
         (p = ⟨Y, M, 16, getDaysInMonth Y (M - 1)⟩ ∧
            ¬((Y = sY ∧ M = sM ∧ 16 < sD) ∨
              (Y = eY ∧ M = eM ∧ eD < getDaysInMonth Y (M - 1))))) :=
  getPeriodsP_quincenal_mem sY sM sD eY eM eD hsM1 hsM2 heM1 heM2

theorem C3_semimonthly_halves_witness :
    Period.mk 2024 1 16 31 ∈ getPeriodsP 2024 1 1 2024 1 31 PayrollType.quincenal := by
  have h := C3_semimonthly_halves 2024 1 1 2024 1 31
    (by decide) (by decide) (by decide) (by decide)
  exact (h ⟨2024, 1, 16, 31⟩).mpr
    ⟨2024, 1, by decide, by decide, by decide, by decide,
      Or.inr ⟨by decide, by decide⟩⟩

set_option maxRecDepth 8000 in
/-- C6 counterexample: the claim says a Monthly start day ≠ 1 makes the
*whole* result empty even when the end aligns.  With start `2024-01-15`
and end `2024-03-31` (end aligned: 31 is March's last day) the code
skips only January and still emits February and March. -/
theorem C6_counterexample :
    getPeriods "2024-01-15" "2024-03-31" PayrollType.mensual =
      some [⟨2024, 2, 1, 29⟩, ⟨2024, 3, 1, 31⟩] ∧
    (1 : ℤ) < 15 ∧ (31 : ℤ) = getDaysInMonth 2024 2 := by
  refine ⟨?_, by decide, by decide⟩
  with_unfolding_all decide

/-- C6 (amended): for parseable dates (months in 1..12) under the
Monthly cycle, a start day > 1 excludes only the *start month* from the
result (no emitted period belongs to the start year/month); in
particular a range confined to the start month yields the empty
sequence.  Full months after the start month still qualify. -/
theorem C6_start_month_rejected (sY sM sD eY eM eD : ℤ)
    (hsM1 : 1 ≤ sM) (hsM2 : sM ≤ 12) (heM1 : 1 ≤ eM) (heM2 : eM ≤ 12)
    (hsD : 1 < sD) :
    (∀ p ∈ getPeriodsP sY sM sD eY eM eD PayrollType.mensual,
      ¬(p.y = sY ∧ p.m = sM)) ∧
    (sY = eY ∧ sM = eM →
      getPeriodsP sY sM sD eY eM eD PayrollType.mensual = []) := by
  constructor
  · intro p hp hym
    rcases (getPeriodsP_mensual_mem sY sM sD eY eM eD hsM1 hsM2 heM1 heM2
      p).mp hp with ⟨Y, M, h1, h2, h3, h4, hpe, hstart, _⟩
    subst hpe
    simp only at hym
    have := hstart ⟨hym.1, hym.2⟩
    omega
  · rintro ⟨hy, hm⟩
    rw [List.eq_nil_iff_forall_not_mem]
    intro p hp
    rcases (getPeriodsP_mensual_mem sY sM sD eY eM eD hsM1 hsM2 heM1 heM2
      p).mp hp with ⟨Y, M, h1, h2, h3, h4, _, hstart, _⟩
    subst hy; subst hm
    have hYM : Y = sY ∧ M = sM := by omega
    have := hstart hYM
    omega

theorem C6_start_month_rejected_witness :
    getPeriodsP 2024 2 15 2024 2 29 PayrollType.mensual = [] := by
  have h := C6_start_month_rejected 2024 2 15 2024 2 29
    (by decide) (by decide) (by decide) (by decide) (by decide)
  exact h.2 ⟨rfl, rfl⟩

/-- C8: whenever `segment` returns a sequence, it is chronologically
ordered and pairwise non-overlapping (each period ends strictly before
every later one starts, on the nominal `(year, month, day)` dates), each
period's start day is ≥ 1 and ≤ its end day, and under the SemiMonthly
cycle every period is exactly a half-month: days `[1, 15]` or days
`[16, last calendar day]` of its single month — no period crosses the
15th/16th boundary. -/
theorem C8_ordered_nonoverlapping (startStr endStr : String)
    (t : PayrollType) (ps : List Period)
    (h : getPeriods startStr endStr t = some ps) :
    List.Pairwise perOrd ps ∧ (∀ p ∈ ps, 1 ≤ p.d1 ∧ p.d1 ≤ p.d2) ∧
    (t = PayrollType.quincenal → ∀ p ∈ ps,
      (p.d1 = 1 ∧ p.d2 = 15) ∨
        (p.d1 = 16 ∧ p.d2 = getDaysInMonth p.y (p.m - 1))) := by
  rcases getPeriods_result startStr endStr t ps h with rfl | hwalk
  · exact ⟨List.Pairwise.nil, by simp, by simp⟩
  · obtain ⟨sY, sMi, sD?, eY, eMi, eD?, rfl⟩ := hwalk
    have hdays : ∀ p ∈ monthWalk (monthPeriods t sY sMi sD? eY eMi eD?) eY eMi sY sMi,
        1 ≤ p.d1 ∧ p.d1 ≤ p.d2 := by
      intro p hp
      obtain ⟨Y', M', hp'⟩ :=
        monthWalk_mem_exists (monthPeriods t sY sMi sD? eY eMi eD?) eY eMi sY sMi p hp
      exact monthPeriods_days t sY sMi sD? eY eMi eD? Y' M' p hp'
    refine ⟨?_, hdays, ?_⟩
    · refine chain'_pairwise_perOrd _ ?_ (fun q hq => (hdays q hq).2)
      exact monthWalk_chain _ eY eMi
        (monthPeriods_shape t sY sMi sD? eY eMi eD?)
        (monthPeriods_chain t sY sMi sD? eY eMi eD?) sY sMi
    · rintro rfl p hp
      obtain ⟨Y', M', hp'⟩ :=
        monthWalk_mem_exists _ eY eMi sY sMi p hp
      exact monthPeriods_halves sY sMi sD? eY eMi eD? Y' M' p hp'

set_option maxRecDepth 8000 in
theorem C8_ordered_nonoverlapping_witness :
    List.Pairwise perOrd
      [Period.mk 2024 1 1 15, Period.mk 2024 1 16 31, Period.mk 2024 2 1 15] ∧
    (∀ p ∈ [Period.mk 2024 1 1 15, Period.mk 2024 1 16 31, Period.mk 2024 2 1 15],
      1 ≤ p.d1 ∧ p.d1 ≤ p.d2) ∧
    (PayrollType.quincenal = PayrollType.quincenal →
      ∀ p ∈ [Period.mk 2024 1 1 15, Period.mk 2024 1 16 31, Period.mk 2024 2 1 15],
        (p.d1 = 1 ∧ p.d2 = 15) ∨
          (p.d1 = 16 ∧ p.d2 = getDaysInMonth p.y (p.m - 1))) :=
  C8_ordered_nonoverlapping "2024-01-01" "2024-02-15" PayrollType.quincenal
    [⟨2024, 1, 1, 15⟩, ⟨2024, 1, 16, 31⟩, ⟨2024, 2, 1, 15⟩]
    (by with_unfolding_all decide)

theorem otStep_decomp (data : InputRecord) (hourlyDiff : ℚ)
    (acc : List DetailLine × SummaryRow) (spec : OtSpec) :
    otStep data hourlyDiff acc spec =
      (acc.1 ++ otDetail data hourlyDiff spec,
       otSum data hourlyDiff acc.2 spec) := by
  unfold otStep otDetail otSum
  dsimp only
  split_ifs <;> simp

theorem foldl_otStep (data : InputRecord) (hourlyDiff : ℚ) :
    ∀ (specs : List OtSpec) (acc : List DetailLine × SummaryRow),
      specs.foldl (otStep data hourlyDiff) acc =
        (acc.1 ++ (specs.map (otDetail data hourlyDiff)).join,
         specs.foldl (otSum data hourlyDiff) acc.2) := by
  intro specs
  induction specs with
  | nil => intro acc; simp
  | cons spec rest ih =>
    intro acc
    simp only [List.foldl_cons, ih, otStep_decomp, List.map_cons,
      List.join, List.flatten_cons, List.append_assoc]

theorem calcPeriod_first (data : InputRecord) (rp hourlyDiff : ℚ) (p : Period) :
    calcPeriod data rp hourlyDiff true p =
      (salaryDetails data rp p ++
        (otMapping.map (otDetail data hourlyDiff)).join,
       otMapping.foldl (otSum data hourlyDiff) (salarySummary data rp p)) := by
  unfold calcPeriod salaryDetails salarySummary
  dsimp only
  rw [if_pos rfl, foldl_otStep]

theorem calcPeriod_rest (data : InputRecord) (rp hourlyDiff : ℚ) (p : Period) :
    calcPeriod data rp hourlyDiff false p =
      (salaryDetails data rp p, salarySummary data rp p) := by
  unfold calcPeriod salaryDetails salarySummary
  dsimp only
  rw [if_neg (by simp)]

theorem calcRows_rest (data : InputRecord) (rp hourlyDiff : ℚ) :
    ∀ ps : List Period,
      calcRows data rp hourlyDiff false ps =
        ((ps.map (salaryDetails data rp)).join,
         ps.map (salarySummary data rp)) := by
  intro ps
  induction ps with
  | nil => simp [calcRows]
  | cons p rest ih =>
    simp only [calcRows, ih, calcPeriod_rest, List.map_cons, List.join,
      List.flatten_cons]

theorem calcRows_first (data : InputRecord) (rp hourlyDiff : ℚ)
    (p : Period) (rest : List Period) :
    calcRows data rp hourlyDiff true (p :: rest) =
      (salaryDetails data rp p ++
        ((otMapping.map (otDetail data hourlyDiff)).join ++
          (rest.map (salaryDetails data rp)).join),
       otMapping.foldl (otSum data hourlyDiff) (salarySummary data rp p) ::
         rest.map (salarySummary data rp)) := by
  simp only [calcRows, calcPeriod_first, calcRows_rest, List.append_assoc]

theorem calcRows_summaries_len (data : InputRecord) (rp hourlyDiff : ℚ) :
    ∀ (b : Bool) (ps : List Period),
      (calcRows data rp hourlyDiff b ps).2.length = ps.length := by
  intro b ps
  induction ps generalizing b with
  | nil => simp [calcRows]
  | cons p rest ih => simp [calcRows, ih]

theorem otSum_hed_periodo (data : InputRecord) (hourlyDiff : ℚ) (s : SummaryRow) :
    (otSum data hourlyDiff s hedSpec).periodo = s.periodo := by
  unfold otSum hedSpec
  dsimp only
  split_ifs <;> rfl

theorem otSum_hed_nombreCompleto (data : InputRecord) (hourlyDiff : ℚ) (s : SummaryRow) :
    (otSum data hourlyDiff s hedSpec).nombreCompleto = s.nombreCompleto := by
  unfold otSum hedSpec
  dsimp only
  split_ifs <;> rfl

theorem otSum_hed_numeroDocumento (data : InputRecord) (hourlyDiff : ℚ) (s : SummaryRow) :
    (otSum data hourlyDiff s hedSpec).numeroDocumento = s.numeroDocumento := by
  unfold otSum hedSpec
  dsimp only
  split_ifs <;> rfl

theorem otSum_hed_codigoFicha (data : InputRecord) (hourlyDiff : ℚ) (s : SummaryRow) :
    (otSum data hourlyDiff s hedSpec).codigoFicha = s.codigoFicha := by
  unfold otSum hedSpec
  dsimp only
  split_ifs <;> rfl

theorem otSum_hed_salario (data : InputRecord) (hourlyDiff : ℚ) (s : SummaryRow) :
    (otSum data hourlyDiff s hedSpec).salario = s.salario := by
  unfold otSum hedSpec
  dsimp only
  split_ifs <;> rfl

theorem otSum_hed_hefdValor (data : InputRecord) (hourlyDiff : ℚ) (s : SummaryRow) :
    (otSum data hourlyDiff s hedSpec).hefdValor = s.hefdValor := by
  unfold otSum hedSpec
  dsimp only
  split_ifs <;> rfl

theorem otSum_hed_hefdCantidad (data : InputRecord) (hourlyDiff : ℚ) (s : SummaryRow) :
    (otSum data hourlyDiff s hedSpec).hefdCantidad = s.hefdCantidad := by
  unfold otSum hedSpec
  dsimp only
  split_ifs <;> rfl

theorem otSum_hed_henValor (data : InputRecord) (hourlyDiff : ℚ) (s : SummaryRow) :
    (otSum data hourlyDiff s hedSpec).henValor = s.henValor := by
  unfold otSum hedSpec
  dsimp only
  split_ifs <;> rfl

theorem otSum_hed_henCantidad (data : InputRecord) (hourlyDiff : ℚ) (s : SummaryRow) :
    (otSum data hourlyDiff s hedSpec).henCantidad = s.henCantidad := by
  unfold otSum hedSpec
  dsimp only
  split_ifs <;> rfl

theorem otSum_hed_hefnValor (data : InputRecord) (hourlyDiff : ℚ) (s : SummaryRow) :
    (otSum data hourlyDiff s hedSpec).hefnValor = s.hefnValor := by
  unfold otSum hedSpec
  dsimp only
  split_ifs <;> rfl

theorem otSum_hed_hefnCantidad (data : InputRecord) (hourlyDiff : ℚ) (s : SummaryRow) :
    (otSum data hourlyDiff s hedSpec).hefnCantidad = s.hefnCantidad := by
  unfold otSum hedSpec
  dsimp only
  split_ifs <;> rfl

theorem otSum_hed_hedValor (data : InputRecord) (hourlyDiff : ℚ) (s : SummaryRow) :
    (otSum data hourlyDiff s hedSpec).hedValor =
      if 0 < data.HED_CANTIDAD.getD 0 ∧
          0 < hourlyDiff * FACTORS.HED * data.HED_CANTIDAD.getD 0 then
        jsRound (hourlyDiff * FACTORS.HED * data.HED_CANTIDAD.getD 0)
      else s.hedValor := by
  unfold otSum hedSpec
  dsimp only
  split_ifs <;> first | rfl | tauto

theorem otSum_hed_hedCantidad (data : InputRecord) (hourlyDiff : ℚ) (s : SummaryRow) :
    (otSum data hourlyDiff s hedSpec).hedCantidad =
      if 0 < data.HED_CANTIDAD.getD 0 ∧
          0 < hourlyDiff * FACTORS.HED * data.HED_CANTIDAD.getD 0 then
        data.HED_CANTIDAD.getD 0
      else s.hedCantidad := by
  unfold otSum hedSpec
  dsimp only
  split_ifs <;> first | rfl | tauto

theorem otSum_hen_periodo (data : InputRecord) (hourlyDiff : ℚ) (s : SummaryRow) :
    (otSum data hourlyDiff s henSpec).periodo = s.periodo := by
  unfold otSum henSpec
  dsimp only
  split_ifs <;> rfl

theorem otSum_hen_nombreCompleto (data : InputRecord) (hourlyDiff : ℚ) (s : SummaryRow) :
    (otSum data hourlyDiff s henSpec).nombreCompleto = s.nombreCompleto := by
  unfold otSum henSpec
  dsimp only
  split_ifs <;> rfl

theorem otSum_hen_numeroDocumento (data : InputRecord) (hourlyDiff : ℚ) (s : SummaryRow) :
    (otSum data hourlyDiff s henSpec).numeroDocumento = s.numeroDocumento := by
  unfold otSum henSpec
  dsimp only
  split_ifs <;> rfl

theorem otSum_hen_codigoFicha (data : InputRecord) (hourlyDiff : ℚ) (s : SummaryRow) :
    (otSum data hourlyDiff s henSpec).codigoFicha = s.codigoFicha := by
  unfold otSum henSpec
  dsimp only
  split_ifs <;> rfl

theorem otSum_hen_salario (data : InputRecord) (hourlyDiff : ℚ) (s : SummaryRow) :
    (otSum data hourlyDiff s henSpec).salario = s.salario := by
  unfold otSum henSpec
  dsimp only
  split_ifs <;> rfl

theorem otSum_hen_hefdValor (data : InputRecord) (hourlyDiff : ℚ) (s : SummaryRow) :
    (otSum data hourlyDiff s henSpec).hefdValor = s.hefdValor := by
  unfold otSum henSpec
  dsimp only
  split_ifs <;> rfl

theorem otSum_hen_hefdCantidad (data : InputRecord) (hourlyDiff : ℚ) (s : SummaryRow) :
    (otSum data hourlyDiff s henSpec).hefdCantidad = s.hefdCantidad := by
  unfold otSum henSpec
  dsimp only
  split_ifs <;> rfl

theorem otSum_hen_hedValor (data : InputRecord) (hourlyDiff : ℚ) (s : SummaryRow) :
    (otSum data hourlyDiff s henSpec).hedValor = s.hedValor := by
  unfold otSum henSpec
  dsimp only
  split_ifs <;> rfl

theorem otSum_hen_hedCantidad (data : InputRecord) (hourlyDiff : ℚ) (s : SummaryRow) :
    (otSum data hourlyDiff s henSpec).hedCantidad = s.hedCantidad := by
  unfold otSum henSpec
  dsimp only
  split_ifs <;> rfl

theorem otSum_hen_hefnValor (data : InputRecord) (hourlyDiff : ℚ) (s : SummaryRow) :
    (otSum data hourlyDiff s henSpec).hefnValor = s.hefnValor := by
  unfold otSum henSpec
  dsimp only
  split_ifs <;> rfl

theorem otSum_hen_hefnCantidad (data : InputRecord) (hourlyDiff : ℚ) (s : SummaryRow) :
    (otSum data hourlyDiff s henSpec).hefnCantidad = s.hefnCantidad := by
  unfold otSum henSpec
  dsimp only
  split_ifs <;> rfl

theorem otSum_hen_henValor (data : InputRecord) (hourlyDiff : ℚ) (s : SummaryRow) :
    (otSum data hourlyDiff s henSpec).henValor =
      if 0 < data.HEN_CANTIDAD.getD 0 ∧
          0 < hourlyDiff * FACTORS.HEN * data.HEN_CANTIDAD.getD 0 then
        jsRound (hourlyDiff * FACTORS.HEN * data.HEN_CANTIDAD.getD 0)
      else s.henValor := by
  unfold otSum henSpec
  dsimp only
  split_ifs <;> first | rfl | tauto

theorem otSum_hen_henCantidad (data : InputRecord) (hourlyDiff : ℚ) (s : SummaryRow) :
    (otSum data hourlyDiff s henSpec).henCantidad =
      if 0 < data.HEN_CANTIDAD.getD 0 ∧
          0 < hourlyDiff * FACTORS.HEN * data.HEN_CANTIDAD.getD 0 then
        data.HEN_CANTIDAD.getD 0
      else s.henCantidad := by
  unfold otSum henSpec
  dsimp only
  split_ifs <;> first | rfl | tauto

theorem otSum_hefd_periodo (data : InputRecord) (hourlyDiff : ℚ) (s : SummaryRow) :
    (otSum data hourlyDiff s hefdSpec).periodo = s.periodo := by
  unfold otSum hefdSpec
  dsimp only
  split_ifs <;> rfl

theorem otSum_hefd_nombreCompleto (data : InputRecord) (hourlyDiff : ℚ) (s : SummaryRow) :
    (otSum data hourlyDiff s hefdSpec).nombreCompleto = s.nombreCompleto := by
  unfold otSum hefdSpec
  dsimp only
  split_ifs <;> rfl

theorem otSum_hefd_numeroDocumento (data : InputRecord) (hourlyDiff : ℚ) (s : SummaryRow) :
    (otSum data hourlyDiff s hefdSpec).numeroDocumento = s.numeroDocumento := by
  unfold otSum hefdSpec
  dsimp only
  split_ifs <;> rfl

theorem otSum_hefd_codigoFicha (data : InputRecord) (hourlyDiff : ℚ) (s : SummaryRow) :
    (otSum data hourlyDiff s hefdSpec).codigoFicha = s.codigoFicha := by
  unfold otSum hefdSpec
  dsimp only
  split_ifs <;> rfl

theorem otSum_hefd_salario (data : InputRecord) (hourlyDiff : ℚ) (s : SummaryRow) :
    (otSum data hourlyDiff s hefdSpec).salario = s.salario := by
  unfold otSum hefdSpec
  dsimp only
  split_ifs <;> rfl

theorem otSum_hefd_hedValor (data : InputRecord) (hourlyDiff : ℚ) (s : SummaryRow) :
    (otSum data hourlyDiff s hefdSpec).hedValor = s.hedValor := by
  unfold otSum hefdSpec
  dsimp only
  split_ifs <;> rfl

theorem otSum_hefd_hedCantidad (data : InputRecord) (hourlyDiff : ℚ) (s : SummaryRow) :
    (otSum data hourlyDiff s hefdSpec).hedCantidad = s.hedCantidad := by
  unfold otSum hefdSpec
  dsimp only
  split_ifs <;> rfl

theorem otSum_hefd_henValor (data : InputRecord) (hourlyDiff : ℚ) (s : SummaryRow) :
    (otSum data hourlyDiff s hefdSpec).henValor = s.henValor := by
  unfold otSum hefdSpec
  dsimp only
  split_ifs <;> rfl

theorem otSum_hefd_henCantidad (data : InputRecord) (hourlyDiff : ℚ) (s : SummaryRow) :
    (otSum data hourlyDiff s hefdSpec).henCantidad = s.henCantidad := by
  unfold otSum hefdSpec
  dsimp only
  split_ifs <;> rfl

theorem otSum_hefd_hefnValor (data : InputRecord) (hourlyDiff : ℚ) (s : SummaryRow) :
    (otSum data hourlyDiff s hefdSpec).hefnValor = s.hefnValor := by
  unfold otSum hefdSpec
  dsimp only
  split_ifs <;> rfl

theorem otSum_hefd_hefnCantidad (data : InputRecord) (hourlyDiff : ℚ) (s : SummaryRow) :
    (otSum data hourlyDiff s hefdSpec).hefnCantidad = s.hefnCantidad := by
  unfold otSum hefdSpec
  dsimp only
  split_ifs <;> rfl

theorem otSum_hefd_hefdValor (data : InputRecord) (hourlyDiff : ℚ) (s : SummaryRow) :
    (otSum data hourlyDiff s hefdSpec).hefdValor =
      if 0 < data.HEFD_CANTIDAD.getD 0 ∧
          0 < hourlyDiff * FACTORS.HEFD * data.HEFD_CANTIDAD.getD 0 then
        jsRound (hourlyDiff * FACTORS.HEFD * data.HEFD_CANTIDAD.getD 0)
      else s.hefdValor := by
  unfold otSum hefdSpec
  dsimp only
  split_ifs <;> first | rfl | tauto

theorem otSum_hefd_hefdCantidad (data : InputRecord) (hourlyDiff : ℚ) (s : SummaryRow) :
    (otSum data hourlyDiff s hefdSpec).hefdCantidad =
      if 0 < data.HEFD_CANTIDAD.getD 0 ∧
          0 < hourlyDiff * FACTORS.HEFD * data.HEFD_CANTIDAD.getD 0 then
        data.HEFD_CANTIDAD.getD 0
      else s.hefdCantidad := by
  unfold otSum hefdSpec
  dsimp only
  split_ifs <;> first | rfl | tauto

theorem otSum_hefn_periodo (data : InputRecord) (hourlyDiff : ℚ) (s : SummaryRow) :
    (otSum data hourlyDiff s hefnSpec).periodo = s.periodo := by
  unfold otSum hefnSpec
  dsimp only
  split_ifs <;> rfl

theorem otSum_hefn_nombreCompleto (data : InputRecord) (hourlyDiff : ℚ) (s : SummaryRow) :
    (otSum data hourlyDiff s hefnSpec).nombreCompleto = s.nombreCompleto := by
  unfold otSum hefnSpec
  dsimp only
  split_ifs <;> rfl

theorem otSum_hefn_numeroDocumento (data : InputRecord) (hourlyDiff : ℚ) (s : SummaryRow) :
    (otSum data hourlyDiff s hefnSpec).numeroDocumento = s.numeroDocumento := by
  unfold otSum hefnSpec
  dsimp only
  split_ifs <;> rfl

theorem otSum_hefn_codigoFicha (data : InputRecord) (hourlyDiff : ℚ) (s : SummaryRow) :
    (otSum data hourlyDiff s hefnSpec).codigoFicha = s.codigoFicha := by
  unfold otSum hefnSpec
  dsimp only
  split_ifs <;> rfl

theorem otSum_hefn_salario (data : InputRecord) (hourlyDiff : ℚ) (s : SummaryRow) :
    (otSum data hourlyDiff s hefnSpec).salario = s.salario := by
  unfold otSum hefnSpec
  dsimp only
  split_ifs <;> rfl

theorem otSum_hefn_hefdValor (data : InputRecord) (hourlyDiff : ℚ) (s : SummaryRow) :
    (otSum data hourlyDiff s hefnSpec).hefdValor = s.hefdValor := by
  unfold otSum hefnSpec
  dsimp only
  split_ifs <;> rfl

theorem otSum_hefn_hefdCantidad (data : InputRecord) (hourlyDiff : ℚ) (s : SummaryRow) :
    (otSum data hourlyDiff s hefnSpec).hefdCantidad = s.hefdCantidad := by
  unfold otSum hefnSpec
  dsimp only
  split_ifs <;> rfl

theorem otSum_hefn_hedValor (data : InputRecord) (hourlyDiff : ℚ) (s : SummaryRow) :
    (otSum data hourlyDiff s hefnSpec).hedValor = s.hedValor := by
  unfold otSum hefnSpec
  dsimp only
  split_ifs <;> rfl

theorem otSum_hefn_hedCantidad (data : InputRecord) (hourlyDiff : ℚ) (s : SummaryRow) :
    (otSum data hourlyDiff s hefnSpec).hedCantidad = s.hedCantidad := by
  unfold otSum hefnSpec
  dsimp only
  split_ifs <;> rfl

theorem otSum_hefn_henValor (data : InputRecord) (hourlyDiff : ℚ) (s : SummaryRow) :
    (otSum data hourlyDiff s hefnSpec).henValor = s.henValor := by
  unfold otSum hefnSpec
  dsimp only
  split_ifs <;> rfl

theorem otSum_hefn_henCantidad (data : InputRecord) (hourlyDiff : ℚ) (s : SummaryRow) :
    (otSum data hourlyDiff s hefnSpec).henCantidad = s.henCantidad := by
  unfold otSum hefnSpec
  dsimp only
  split_ifs <;> rfl

theorem otSum_hefn_hefnValor (data : InputRecord) (hourlyDiff : ℚ) (s : SummaryRow) :
    (otSum data hourlyDiff s hefnSpec).hefnValor =
      if 0 < data.HEFN_CANTIDAD.getD 0 ∧
          0 < hourlyDiff * FACTORS.HEFN * data.HEFN_CANTIDAD.getD 0 then
        jsRound (hourlyDiff * FACTORS.HEFN * data.HEFN_CANTIDAD.getD 0)
      else s.hefnValor := by
  unfold otSum hefnSpec
  dsimp only
  split_ifs <;> first | rfl | tauto

theorem otSum_hefn_hefnCantidad (data : InputRecord) (hourlyDiff : ℚ) (s : SummaryRow) :
    (otSum data hourlyDiff s hefnSpec).hefnCantidad =
      if 0 < data.HEFN_CANTIDAD.getD 0 ∧
          0 < hourlyDiff * FACTORS.HEFN * data.HEFN_CANTIDAD.getD 0 then
        data.HEFN_CANTIDAD.getD 0
      else s.hefnCantidad := by
  unfold otSum hefnSpec
  dsimp only
  split_ifs <;> first | rfl | tauto

theorem otFold_salario (data : InputRecord) (hourlyDiff : ℚ) (s : SummaryRow) :
    (otMapping.foldl (otSum data hourlyDiff) s).salario =
      s.salario := by
  simp only [otMapping, List.foldl_cons, List.foldl_nil, otSum_hed_salario, otSum_hen_salario, otSum_hefd_salario, otSum_hefn_salario]

theorem otFold_periodo (data : InputRecord) (hourlyDiff : ℚ) (s : SummaryRow) :
    (otMapping.foldl (otSum data hourlyDiff) s).periodo =
      s.periodo := by
  simp only [otMapping, List.foldl_cons, List.foldl_nil, otSum_hed_periodo, otSum_hen_periodo, otSum_hefd_periodo, otSum_hefn_periodo]

theorem otFold_hedValor (data : InputRecord) (hourlyDiff : ℚ) (s : SummaryRow) :
    (otMapping.foldl (otSum data hourlyDiff) s).hedValor =
      if 0 < data.HED_CANTIDAD.getD 0 ∧
          0 < hourlyDiff * FACTORS.HED * data.HED_CANTIDAD.getD 0 then
        jsRound (hourlyDiff * FACTORS.HED * data.HED_CANTIDAD.getD 0)
      else s.hedValor := by
  simp only [otMapping, List.foldl_cons, List.foldl_nil, otSum_hed_hedValor, otSum_hen_hedValor, otSum_hefd_hedValor, otSum_hefn_hedValor]

theorem otFold_hedCantidad (data : InputRecord) (hourlyDiff : ℚ) (s : SummaryRow) :
    (otMapping.foldl (otSum data hourlyDiff) s).hedCantidad =
      if 0 < data.HED_CANTIDAD.getD 0 ∧
          0 < hourlyDiff * FACTORS.HED * data.HED_CANTIDAD.getD 0 then
        data.HED_CANTIDAD.getD 0
      else s.hedCantidad := by
  simp only [otMapping, List.foldl_cons, List.foldl_nil, otSum_hed_hedCantidad, otSum_hen_hedCantidad, otSum_hefd_hedCantidad, otSum_hefn_hedCantidad]

theorem otFold_henValor (data : InputRecord) (hourlyDiff : ℚ) (s : SummaryRow) :
    (otMapping.foldl (otSum data hourlyDiff) s).henValor =
      if 0 < data.HEN_CANTIDAD.getD 0 ∧
          0 < hourlyDiff * FACTORS.HEN * data.HEN_CANTIDAD.getD 0 then
        jsRound (hourlyDiff * FACTORS.HEN * data.HEN_CANTIDAD.getD 0)
      else s.henValor := by
  simp only [otMapping, List.foldl_cons, List.foldl_nil, otSum_hed_henValor, otSum_hen_henValor, otSum_hefd_henValor, otSum_hefn_henValor]

theorem otFold_henCantidad (data : InputRecord) (hourlyDiff : ℚ) (s : SummaryRow) :
    (otMapping.foldl (otSum data hourlyDiff) s).henCantidad =
      if 0 < data.HEN_CANTIDAD.getD 0 ∧
          0 < hourlyDiff * FACTORS.HEN * data.HEN_CANTIDAD.getD 0 then
        data.HEN_CANTIDAD.getD 0
      else s.henCantidad := by
  simp only [otMapping, List.foldl_cons, List.foldl_nil, otSum_hed_henCantidad, otSum_hen_henCantidad, otSum_hefd_henCantidad, otSum_hefn_henCantidad]

theorem otFold_hefdValor (data : InputRecord) (hourlyDiff : ℚ) (s : SummaryRow) :
    (otMapping.foldl (otSum data hourlyDiff) s).hefdValor =
      if 0 < data.HEFD_CANTIDAD.getD 0 ∧
          0 < hourlyDiff * FACTORS.HEFD * data.HEFD_CANTIDAD.getD 0 then
        jsRound (hourlyDiff * FACTORS.HEFD * data.HEFD_CANTIDAD.getD 0)
      else s.hefdValor := by
  simp only [otMapping, List.foldl_cons, List.foldl_nil, otSum_hed_hefdValor, otSum_hen_hefdValor, otSum_hefd_hefdValor, otSum_hefn_hefdValor]

theorem otFold_hefdCantidad (data : InputRecord) (hourlyDiff : ℚ) (s : SummaryRow) :
    (otMapping.foldl (otSum data hourlyDiff) s).hefdCantidad =
      if 0 < data.HEFD_CANTIDAD.getD 0 ∧
          0 < hourlyDiff * FACTORS.HEFD * data.HEFD_CANTIDAD.getD 0 then
        data.HEFD_CANTIDAD.getD 0
      else s.hefdCantidad := by
  simp only [otMapping, List.foldl_cons, List.foldl_nil, otSum_hed_hefdCantidad, otSum_hen_hefdCantidad, otSum_hefd_hefdCantidad, otSum_hefn_hefdCantidad]

theorem otFold_hefnValor (data : InputRecord) (hourlyDiff : ℚ) (s : SummaryRow) :
    (otMapping.foldl (otSum data hourlyDiff) s).hefnValor =
      if 0 < data.HEFN_CANTIDAD.getD 0 ∧
          0 < hourlyDiff * FACTORS.HEFN * data.HEFN_CANTIDAD.getD 0 then
        jsRound (hourlyDiff * FACTORS.HEFN * data.HEFN_CANTIDAD.getD 0)
      else s.hefnValor := by
  simp only [otMapping, List.foldl_cons, List.foldl_nil, otSum_hed_hefnValor, otSum_hen_hefnValor, otSum_hefd_hefnValor, otSum_hefn_hefnValor]

theorem otFold_hefnCantidad (data : InputRecord) (hourlyDiff : ℚ) (s : SummaryRow) :
    (otMapping.foldl (otSum data hourlyDiff) s).hefnCantidad =
      if 0 < data.HEFN_CANTIDAD.getD 0 ∧
          0 < hourlyDiff * FACTORS.HEFN * data.HEFN_CANTIDAD.getD 0 then
        data.HEFN_CANTIDAD.getD 0
      else s.hefnCantidad := by
  simp only [otMapping, List.foldl_cons, List.foldl_nil, otSum_hed_hefnCantidad, otSum_hen_hefnCantidad, otSum_hefd_hefnCantidad, otSum_hefn_hefnCantidad]

theorem salarySummary_salario (data : InputRecord) (rp : ℚ) (p : Period) :
    (salarySummary data rp p).salario = if 0 < rp then jsRound rp else 0 := by
  unfold salarySummary baseRow
  split_ifs <;> rfl

theorem salarySummary_periodo (data : InputRecord) (rp : ℚ) (p : Period) :
    (salarySummary data rp p).periodo = fmtDMY p := by
  unfold salarySummary baseRow
  split_ifs <;> rfl

theorem salarySummary_ot_zero (data : InputRecord) (rp : ℚ) (p : Period) :
    (salarySummary data rp p).hedValor = 0 ∧
    (salarySummary data rp p).hedCantidad = 0 ∧
    (salarySummary data rp p).henValor = 0 ∧
    (salarySummary data rp p).henCantidad = 0 ∧
    (salarySummary data rp p).hefdValor = 0 ∧
    (salarySummary data rp p).hefdCantidad = 0 ∧
    (salarySummary data rp p).hefnValor = 0 ∧
    (salarySummary data rp p).hefnCantidad = 0 := by
  unfold salarySummary baseRow
  split_ifs <;> exact ⟨rfl, rfl, rfl, rfl, rfl, rfl, rfl, rfl⟩

theorem mem_salaryDetails_eq (data : InputRecord) (rp : ℚ) (p : Period)
    (l : DetailLine) (hl : l ∈ salaryDetails data rp p) :
    l = salaryLine data (jsRound rp) p ∧ 0 < rp := by
  unfold salaryDetails at hl
  split_ifs at hl with h
  · exact ⟨by simpa using hl, h⟩
  · simp at hl

theorem mem_otDetail_concept (data : InputRecord) (hourlyDiff : ℚ)
    (spec : OtSpec) (l : DetailLine) (hl : l ∈ otDetail data hourlyDiff spec) :
    l.CONCEPTO = spec.label := by
  unfold otDetail at hl
  dsimp only at hl
  split_ifs at hl <;> simp at hl
  subst hl
  rfl

theorem filter_salaryDetails_self (data : InputRecord) (rp : ℚ) (p : Period) :
    (salaryDetails data rp p).filter (isConcept "Retroactivo sueldo") =
      salaryDetails data rp p := by
  rw [List.filter_eq_self]
  intro l hl
  obtain ⟨rfl, -⟩ := mem_salaryDetails_eq data rp p l hl
  rfl

theorem filter_salaryDetails_ne (data : InputRecord) (rp : ℚ) (p : Period)
    (c : String) (hc : ¬("Retroactivo sueldo" : String) = c) :
    (salaryDetails data rp p).filter (isConcept c) = [] := by
  rw [List.filter_eq_nil_iff]
  intro l hl
  obtain ⟨rfl, -⟩ := mem_salaryDetails_eq data rp p l hl
  simpa [isConcept, salaryLine] using hc

theorem filter_otDetail_self (data : InputRecord) (hourlyDiff : ℚ)
    (spec : OtSpec) :
    (otDetail data hourlyDiff spec).filter (isConcept spec.label) =
      otDetail data hourlyDiff spec := by
  rw [List.filter_eq_self]
  intro l hl
  have := mem_otDetail_concept data hourlyDiff spec l hl
  simp [isConcept, this]

theorem filter_otDetail_ne (data : InputRecord) (hourlyDiff : ℚ)
    (spec : OtSpec) (c : String) (hc : ¬spec.label = c) :
    (otDetail data hourlyDiff spec).filter (isConcept c) = [] := by
  rw [List.filter_eq_nil_iff]
  intro l hl
  have := mem_otDetail_concept data hourlyDiff spec l hl
  simp [isConcept, this, hc]

theorem otDetail_eq_if (data : InputRecord) (hourlyDiff : ℚ) (spec : OtSpec) :
    otDetail data hourlyDiff spec =
      if 0 < (spec.getQty data).getD 0 ∧
          0 < hourlyDiff * spec.factor * (spec.getQty data).getD 0 then
        [{ CEDULA := data.CEDULA, NOMBRE := data.NOMBRE,
           CONCEPTO := spec.label,
           DETALLE := jsQtyStr ((spec.getQty data).getD 0) ++ " horas",
           VALOR_A_PAGAR :=
             jsRound (hourlyDiff * spec.factor * (spec.getQty data).getD 0) }]
      else [] := by
  unfold otDetail
  dsimp only
  split_ifs <;> first | rfl | tauto

theorem salaryDetails_flatten (data : InputRecord) (rp : ℚ) :
    ∀ ps : List Period,
      ((ps.map (salaryDetails data rp)).flatten =
        if 0 < rp then ps.map (salaryLine data (jsRound rp)) else []) := by
  intro ps
  induction ps with
  | nil => split_ifs <;> rfl
  | cons p rest ih =>
    simp only [List.map_cons, List.flatten_cons, ih]
    unfold salaryDetails
    split_ifs <;> simp

theorem calculateRetroactive_eq (data : InputRecord) (t : PayrollType)
    (ps : List Period)
    (hps : getPeriods data.FECHA_INICIO data.FECHA_FIN t = some ps)
    (hne : ¬ps = []) :
    calculateRetroactive data t =
      some (calcRows data
        ((data.SUELDO_NUEVO.getD 0 - data.SUELDO_ANTERIOR.getD 0) *
          (if t = PayrollType.mensual then 1 else 1/2))
        ((data.SUELDO_NUEVO.getD 0 - data.SUELDO_ANTERIOR.getD 0) / 240)
        true ps) := by
  unfold calculateRetroactive
  rw [hps]
  dsimp only
  rw [if_neg (by simpa [List.isEmpty_iff] using hne)]

theorem calcPeriod_congr (d1 d2 : InputRecord)
    (hC : d1.CEDULA = d2.CEDULA) (hN : d1.NOMBRE = d2.NOMBRE)
    (hF : d1.CODIGO_FICHA_COLABORADOR = d2.CODIGO_FICHA_COLABORADOR)
    (h1 : d1.HED_CANTIDAD = d2.HED_CANTIDAD)
    (h2 : d1.HEN_CANTIDAD = d2.HEN_CANTIDAD)
    (h3 : d1.HEFD_CANTIDAD = d2.HEFD_CANTIDAD)
    (h4 : d1.HEFN_CANTIDAD = d2.HEFN_CANTIDAD)
    (rp hourlyDiff : ℚ) (b : Bool) (p : Period) :
    calcPeriod d1 rp hourlyDiff b p = calcPeriod d2 rp hourlyDiff b p := by
  cases b
  · rw [calcPeriod_rest, calcPeriod_rest]
    simp only [salaryDetails, salarySummary, salaryLine, baseRow,
      hC, hN, hF]
  · rw [calcPeriod_first, calcPeriod_first]
    simp only [salaryDetails, salarySummary, salaryLine, baseRow,
      otMapping, List.map_cons, List.map_nil, List.flatten_cons,
      List.flatten_nil, List.foldl_cons, List.foldl_nil,
      otDetail, otSum, hedSpec, henSpec, hefdSpec, hefnSpec,
      hC, hN, hF, h1, h2, h3, h4]

theorem calcRows_congr (d1 d2 : InputRecord)
    (hC : d1.CEDULA = d2.CEDULA) (hN : d1.NOMBRE = d2.NOMBRE)
    (hF : d1.CODIGO_FICHA_COLABORADOR = d2.CODIGO_FICHA_COLABORADOR)
    (h1 : d1.HED_CANTIDAD = d2.HED_CANTIDAD)
    (h2 : d1.HEN_CANTIDAD = d2.HEN_CANTIDAD)
    (h3 : d1.HEFD_CANTIDAD = d2.HEFD_CANTIDAD)
    (h4 : d1.HEFN_CANTIDAD = d2.HEFN_CANTIDAD)
    (rp hourlyDiff : ℚ) :
    ∀ (b : Bool) (ps : List Period),
      calcRows d1 rp hourlyDiff b ps = calcRows d2 rp hourlyDiff b ps := by
  intro b ps
  induction ps generalizing b with
  | nil => rfl
  | cons p rest ih =>
    simp only [calcRows, ih false,
      calcPeriod_congr d1 d2 hC hN hF h1 h2 h3 h4 rp hourlyDiff b p]

theorem calculateRetroactive_congr (d1 d2 : InputRecord) (t : PayrollType)
    (hC : d1.CEDULA = d2.CEDULA) (hN : d1.NOMBRE = d2.NOMBRE)
    (hF : d1.CODIGO_FICHA_COLABORADOR = d2.CODIGO_FICHA_COLABORADOR)
    (hSA : d1.SUELDO_ANTERIOR = d2.SUELDO_ANTERIOR)
    (hSN : d1.SUELDO_NUEVO = d2.SUELDO_NUEVO)
    (hFI : d1.FECHA_INICIO = d2.FECHA_INICIO)
    (hFF : d1.FECHA_FIN = d2.FECHA_FIN)
    (h1 : d1.HED_CANTIDAD = d2.HED_CANTIDAD)
    (h2 : d1.HEN_CANTIDAD = d2.HEN_CANTIDAD)
    (h3 : d1.HEFD_CANTIDAD = d2.HEFD_CANTIDAD)
    (h4 : d1.HEFN_CANTIDAD = d2.HEFN_CANTIDAD) :
    calculateRetroactive d1 t = calculateRetroactive d2 t := by
  unfold calculateRetroactive
  rw [hFI, hFF, hSA, hSN]
  cases getPeriods d2.FECHA_INICIO d2.FECHA_FIN t with
  | none => rfl
  | some ps =>
    dsimp only
    rw [calcRows_congr d1 d2 hC hN hF h1 h2 h3 h4 _ _ true ps]

theorem calc_components (data : InputRecord) (t : PayrollType)
    (p1 : Period) (rest : List Period)
    (ds : List DetailLine) (ss : List SummaryRow)
    (hps : getPeriods data.FECHA_INICIO data.FECHA_FIN t = some (p1 :: rest))
    (hcalc : calculateRetroactive data t = some (ds, ss)) :
    ds = salaryDetails data
        ((data.SUELDO_NUEVO.getD 0 - data.SUELDO_ANTERIOR.getD 0) *
          (if t = PayrollType.mensual then 1 else 1/2)) p1 ++
      ((otMapping.map (otDetail data
          ((data.SUELDO_NUEVO.getD 0 - data.SUELDO_ANTERIOR.getD 0) / 240))).flatten ++
        (rest.map (salaryDetails data
          ((data.SUELDO_NUEVO.getD 0 - data.SUELDO_ANTERIOR.getD 0) *
            (if t = PayrollType.mensual then 1 else 1/2)))).flatten) ∧
    ss = otMapping.foldl (otSum data
        ((data.SUELDO_NUEVO.getD 0 - data.SUELDO_ANTERIOR.getD 0) / 240))
        (salarySummary data
          ((data.SUELDO_NUEVO.getD 0 - data.SUELDO_ANTERIOR.getD 0) *
            (if t = PayrollType.mensual then 1 else 1/2)) p1) ::
      rest.map (salarySummary data
        ((data.SUELDO_NUEVO.getD 0 - data.SUELDO_ANTERIOR.getD 0) *
          (if t = PayrollType.mensual then 1 else 1/2))) := by
  have he := calculateRetroactive_eq data t (p1 :: rest) hps (by simp)
  rw [he] at hcalc
  have hpair := Option.some.inj hcalc
  rw [calcRows_first] at hpair
  exact Prod.ext_iff.mp hpair.symm

theorem filter_salary_flatten_ne (data : InputRecord) (rp : ℚ)
    (ps : List Period) (c : String)
    (hc : ¬("Retroactivo sueldo" : String) = c) :
    ((ps.map (salaryDetails data rp)).flatten).filter (isConcept c) = [] := by
  rw [List.filter_eq_nil_iff]
  intro l hl
  obtain ⟨sd, hsd, hlsd⟩ := List.mem_flatten.mp hl
  obtain ⟨p, _, rfl⟩ := List.mem_map.mp hsd
  obtain ⟨rfl, -⟩ := mem_salaryDetails_eq data rp p l hlsd
  simpa [isConcept, salaryLine] using hc

theorem filter_salary_flatten_self (data : InputRecord) (rp : ℚ)
    (ps : List Period) :
    ((ps.map (salaryDetails data rp)).flatten).filter
        (isConcept "Retroactivo sueldo") =
      (ps.map (salaryDetails data rp)).flatten := by
  rw [List.filter_eq_self]
  intro l hl
  obtain ⟨sd, hsd, hlsd⟩ := List.mem_flatten.mp hl
  obtain ⟨p, _, rfl⟩ := List.mem_map.mp hsd
  obtain ⟨rfl, -⟩ := mem_salaryDetails_eq data rp p l hlsd
  rfl

theorem filter_otFlatten_salary (data : InputRecord) (hourlyDiff : ℚ) :
    ((otMapping.map (otDetail data hourlyDiff)).flatten).filter
      (isConcept "Retroactivo sueldo") = [] := by
  rw [List.filter_eq_nil_iff]
  intro l hl
  obtain ⟨sd, hsd, hlsd⟩ := List.mem_flatten.mp hl
  obtain ⟨spec, hspec, rfl⟩ := List.mem_map.mp hsd
  have hc := mem_otDetail_concept data hourlyDiff spec l hlsd
  intro hcon
  unfold isConcept at hcon
  rw [hc] at hcon
  simp only [otMapping, List.mem_cons, List.not_mem_nil, or_false] at hspec
  rcases hspec with rfl | rfl | rfl | rfl <;> exact absurd hcon (by decide)

theorem filter_otDetail_eqlabel (data : InputRecord) (hourlyDiff : ℚ)
    (spec : OtSpec) (c : String) (hc : spec.label = c) :
    (otDetail data hourlyDiff spec).filter (isConcept c) =
      otDetail data hourlyDiff spec := by
  subst hc
  exact filter_otDetail_self data hourlyDiff spec

/-- C9: the fifth historical overtime category (night surcharge, factor
0.35 = `FACTORS.RN`) is unused by the period-aware calculation: two
records differing only in `RN_CANTIDAD` produce identical details and
summaries, so no output ever derives from that field. -/
theorem C9_rn_unused (data : InputRecord) (t : PayrollType)
    (q1 q2 : Option ℚ) :
    calculateRetroactive { data with RN_CANTIDAD := q1 } t =
      calculateRetroactive { data with RN_CANTIDAD := q2 } t :=
  calculateRetroactive_congr _ _ t rfl rfl rfl rfl rfl rfl rfl rfl rfl rfl rfl

theorem calc_salary_parts (data : InputRecord) (t : PayrollType)
    (p1 : Period) (rest : List Period)
    (ds : List DetailLine) (ss : List SummaryRow)
    (hps : getPeriods data.FECHA_INICIO data.FECHA_FIN t = some (p1 :: rest))
    (hcalc : calculateRetroactive data t = some (ds, ss)) :
    (ds.filter (isConcept "Retroactivo sueldo") =
      if 0 < (data.SUELDO_NUEVO.getD 0 - data.SUELDO_ANTERIOR.getD 0) *
          (if t = PayrollType.mensual then 1 else 1/2) then
        (p1 :: rest).map (salaryLine data
          (jsRound ((data.SUELDO_NUEVO.getD 0 - data.SUELDO_ANTERIOR.getD 0) *
            (if t = PayrollType.mensual then 1 else 1/2))))
      else []) ∧
    (∀ s ∈ ss, s.salario =
      if 0 < (data.SUELDO_NUEVO.getD 0 - data.SUELDO_ANTERIOR.getD 0) *
          (if t = PayrollType.mensual then 1 else 1/2) then
        jsRound ((data.SUELDO_NUEVO.getD 0 - data.SUELDO_ANTERIOR.getD 0) *
          (if t = PayrollType.mensual then 1 else 1/2))
      else 0) := by
  obtain ⟨hds, hss⟩ := calc_components data t p1 rest ds ss hps hcalc
  constructor
  · rw [hds, List.filter_append, List.filter_append,
      filter_salaryDetails_self, filter_otFlatten_salary,
      filter_salary_flatten_self, List.nil_append,
      ← List.flatten_cons, ← List.map_cons, salaryDetails_flatten]
  · intro s hs
    rw [hss] at hs
    rcases List.mem_cons.mp hs with rfl | hs
    · rw [otFold_salario, salarySummary_salario]
    · obtain ⟨p, _, rfl⟩ := List.mem_map.mp hs
      rw [salarySummary_salario]

/-- C5 counterexample: the claim ties the salary line to positivity of
the *rounded* amount, but the code checks the unrounded amount.  With
previous salary absent (0) and new salary 0.4, Monthly, January 2024:
round(0.4 × 1) = 0 is not positive, so the claim demands no detail
line, yet the code appends one (with amount 0). -/
theorem C5_counterexample :
    calculateRetroactive
      { CEDULA := "1", NOMBRE := "N", CODIGO_FICHA_COLABORADOR := none,
        SUELDO_ANTERIOR := none, SUELDO_NUEVO := some (2/5),
        FECHA_INICIO := "2024-01-01", FECHA_FIN := "2024-01-31",
        HED_CANTIDAD := none, HEN_CANTIDAD := none,
        HEFD_CANTIDAD := none, HEFN_CANTIDAD := none, RN_CANTIDAD := none }
      PayrollType.mensual =
    some ([{ CEDULA := "1", NOMBRE := "N", CONCEPTO := "Retroactivo sueldo",
             DETALLE := "Periodo 01/01/2024", VALOR_A_PAGAR := 0 }],
          [{ periodo := "01/01/2024", nombreCompleto := "N",
             numeroDocumento := "1", codigoFicha := "", salario := 0,
             hefdValor := 0, hefdCantidad := 0, hedValor := 0,
             hedCantidad := 0, henValor := 0, henCantidad := 0,
             hefnValor := 0, hefnCantidad := 0 }]) ∧
    jsRound (((2/5 : ℚ) - 0) * 1) = 0 := by
  constructor
  · with_unfolding_all decide
  · with_unfolding_all decide

/-- C5 (amended): for every period, `calculate` appends a DetailLine
with concept "Retroactivo sueldo" iff the *unrounded* per-period salary
amount `salaryDelta × periodFactor` is positive (periodFactor 1 for
Monthly, 0.5 for SemiMonthly); the appended line's amount is
`round(salaryDelta × periodFactor)` (which can be 0), and when the
unrounded amount is zero or negative no line is appended and every
summary row's salary field stays at its zero default. -/
theorem C5_salary_line_iff (data : InputRecord) (t : PayrollType)
    (ps : List Period) (ds : List DetailLine) (ss : List SummaryRow)
    (hps : getPeriods data.FECHA_INICIO data.FECHA_FIN t = some ps)
    (hne : ¬ps = [])
    (hcalc : calculateRetroactive data t = some (ds, ss)) :
    (ds.filter (isConcept "Retroactivo sueldo") =
      if 0 < (data.SUELDO_NUEVO.getD 0 - data.SUELDO_ANTERIOR.getD 0) *
          (if t = PayrollType.mensual then 1 else 1/2) then
        ps.map (salaryLine data
          (jsRound ((data.SUELDO_NUEVO.getD 0 - data.SUELDO_ANTERIOR.getD 0) *
            (if t = PayrollType.mensual then 1 else 1/2))))
      else []) ∧
    (∀ s ∈ ss, s.salario =
      if 0 < (data.SUELDO_NUEVO.getD 0 - data.SUELDO_ANTERIOR.getD 0) *
          (if t = PayrollType.mensual then 1 else 1/2) then
        jsRound ((data.SUELDO_NUEVO.getD 0 - data.SUELDO_ANTERIOR.getD 0) *
          (if t = PayrollType.mensual then 1 else 1/2))
      else 0) := by
  obtain ⟨p1, rest, rfl⟩ : ∃ p1 rest, ps = p1 :: rest := by
    cases ps with
    | nil => exact absurd rfl hne
    | cons a l => exact ⟨a, l, rfl⟩
  exact calc_salary_parts data t p1 rest ds ss hps hcalc

set_option maxRecDepth 8000 in
theorem C5_salary_line_iff_witness :
    ([{ CEDULA := "1", NOMBRE := "N", CONCEPTO := "Retroactivo sueldo",
        DETALLE := "Periodo 01/01/2024", VALOR_A_PAGAR := 0 }]
      : List DetailLine).filter (isConcept "Retroactivo sueldo") =
      (if 0 < (((some (2/5) : Option ℚ).getD 0 - (none : Option ℚ).getD 0) *
          (if PayrollType.mensual = PayrollType.mensual then 1 else 1/2)) then
        [Period.mk 2024 1 1 31].map (salaryLine
          { CEDULA := "1", NOMBRE := "N", CODIGO_FICHA_COLABORADOR := none,
            SUELDO_ANTERIOR := none, SUELDO_NUEVO := some (2/5),
            FECHA_INICIO := "2024-01-01", FECHA_FIN := "2024-01-31",
            HED_CANTIDAD := none, HEN_CANTIDAD := none,
            HEFD_CANTIDAD := none, HEFN_CANTIDAD := none,
            RN_CANTIDAD := none }
          (jsRound ((((some (2/5) : Option ℚ).getD 0 - (none : Option ℚ).getD 0)) *
            (if PayrollType.mensual = PayrollType.mensual then 1 else 1/2))))
      else []) :=
  (C5_salary_line_iff
    { CEDULA := "1", NOMBRE := "N", CODIGO_FICHA_COLABORADOR := none,
      SUELDO_ANTERIOR := none, SUELDO_NUEVO := some (2/5),
      FECHA_INICIO := "2024-01-01", FECHA_FIN := "2024-01-31",
      HED_CANTIDAD := none, HEN_CANTIDAD := none,
      HEFD_CANTIDAD := none, HEFN_CANTIDAD := none, RN_CANTIDAD := none }
    PayrollType.mensual [⟨2024, 1, 1, 31⟩]
    [{ CEDULA := "1", NOMBRE := "N", CONCEPTO := "Retroactivo sueldo",
       DETALLE := "Periodo 01/01/2024", VALOR_A_PAGAR := 0 }]
    [{ periodo := "01/01/2024", nombreCompleto := "N",
       numeroDocumento := "1", codigoFicha := "", salario := 0,
       hefdValor := 0, hefdCantidad := 0, hedValor := 0, hedCantidad := 0,
       henValor := 0, henCantidad := 0, hefnValor := 0, hefnCantidad := 0 }]
    (by with_unfolding_all decide) (by simp)
    (by with_unfolding_all decide)).1

set_option maxRecDepth 8000 in
/-- C7 counterexample: the claim says the salary line's detail field
equals *exactly* the period start formatted `DD/MM/YYYY`; the code
emits `"Periodo DD/MM/YYYY"` (a literal `"Periodo "` prefix).  At the
concrete input below the emitted detail is
`"Periodo 01/01/2024"`, not `"01/01/2024"`. -/
theorem C7_counterexample :
    calculateRetroactive
      { CEDULA := "1", NOMBRE := "N", CODIGO_FICHA_COLABORADOR := none,
        SUELDO_ANTERIOR := some 1, SUELDO_NUEVO := some 3,
        FECHA_INICIO := "2024-01-01", FECHA_FIN := "2024-01-31",
        HED_CANTIDAD := none, HEN_CANTIDAD := none,
        HEFD_CANTIDAD := none, HEFN_CANTIDAD := none, RN_CANTIDAD := none }
      PayrollType.mensual =
    some ([{ CEDULA := "1", NOMBRE := "N", CONCEPTO := "Retroactivo sueldo",
             DETALLE := "Periodo 01/01/2024", VALOR_A_PAGAR := 2 }],
          [{ periodo := "01/01/2024", nombreCompleto := "N",
             numeroDocumento := "1", codigoFicha := "", salario := 2,
             hefdValor := 0, hefdCantidad := 0, hedValor := 0,
             hedCantidad := 0, henValor := 0, henCantidad := 0,
             hefnValor := 0, hefnCantidad := 0 }]) ∧
    ¬("Periodo 01/01/2024" : String) = "01/01/2024" := by
  constructor
  · with_unfolding_all decide
  · decide

/-- C7 (amended): every emitted salary DetailLine's free-text detail
field equals the string `"Periodo "` followed by its period's start
date formatted `DD/MM/YYYY`, and its amount is the rounded per-period
salary value. -/
theorem C7_salary_detail_format (data : InputRecord) (t : PayrollType)
    (ps : List Period) (ds : List DetailLine) (ss : List SummaryRow)
    (hps : getPeriods data.FECHA_INICIO data.FECHA_FIN t = some ps)
    (hne : ¬ps = [])
    (hcalc : calculateRetroactive data t = some (ds, ss)) :
    ∀ l ∈ ds, l.CONCEPTO = "Retroactivo sueldo" →
      ∃ p ∈ ps, l.DETALLE = "Periodo " ++ fmtDMY p ∧
        l.VALOR_A_PAGAR =
          jsRound ((data.SUELDO_NUEVO.getD 0 - data.SUELDO_ANTERIOR.getD 0) *
            (if t = PayrollType.mensual then 1 else 1/2)) := by
  intro l hl hcon
  obtain ⟨p1, rest, rfl⟩ : ∃ p1 rest, ps = p1 :: rest := by
    cases ps with
    | nil => exact absurd rfl hne
    | cons a l => exact ⟨a, l, rfl⟩
  have hfl := (calc_salary_parts data t p1 rest ds ss hps hcalc).1
  have hmem : l ∈ ds.filter (isConcept "Retroactivo sueldo") :=
    List.mem_filter.mpr ⟨hl, by simp [isConcept, hcon]⟩
  rw [hfl] at hmem
  by_cases hpos : 0 < (data.SUELDO_NUEVO.getD 0 - data.SUELDO_ANTERIOR.getD 0) *
      (if t = PayrollType.mensual then 1 else 1/2)
  · rw [if_pos hpos] at hmem
    obtain ⟨p, hp, rfl⟩ := List.mem_map.mp hmem
    exact ⟨p, hp, rfl, rfl⟩
  · rw [if_neg hpos] at hmem
    simp at hmem

set_option maxRecDepth 8000 in
theorem C7_salary_detail_format_witness :
    ∃ p ∈ [Period.mk 2024 1 1 31],
      ("Periodo 01/01/2024" : String) = "Periodo " ++ fmtDMY p ∧
      (2 : ℤ) =
        jsRound ((((some 3 : Option ℚ).getD 0 -
            (some 1 : Option ℚ).getD 0)) *
          (if PayrollType.mensual = PayrollType.mensual then 1 else 1/2)) :=
  C7_salary_detail_format
    { CEDULA := "1", NOMBRE := "N", CODIGO_FICHA_COLABORADOR := none,
      SUELDO_ANTERIOR := some 1, SUELDO_NUEVO := some 3,
      FECHA_INICIO := "2024-01-01", FECHA_FIN := "2024-01-31",
      HED_CANTIDAD := none, HEN_CANTIDAD := none,
      HEFD_CANTIDAD := none, HEFN_CANTIDAD := none, RN_CANTIDAD := none }
    PayrollType.mensual [⟨2024, 1, 1, 31⟩]
    [{ CEDULA := "1", NOMBRE := "N", CONCEPTO := "Retroactivo sueldo",
       DETALLE := "Periodo 01/01/2024", VALOR_A_PAGAR := 2 }]
    [{ periodo := "01/01/2024", nombreCompleto := "N",
       numeroDocumento := "1", codigoFicha := "", salario := 2,
       hefdValor := 0, hefdCantidad := 0, hedValor := 0, hedCantidad := 0,
       henValor := 0, henCantidad := 0, hefnValor := 0, hefnCantidad := 0 }]
    (by with_unfolding_all decide) (by simp)
    (by with_unfolding_all decide)
    { CEDULA := "1", NOMBRE := "N", CONCEPTO := "Retroactivo sueldo",
      DETALLE := "Periodo 01/01/2024", VALOR_A_PAGAR := 2 }
    (by simp) rfl

theorem otDetail_nil (data : InputRecord) (hourlyDiff : ℚ) (spec : OtSpec)
    (h : ¬0 < (spec.getQty data).getD 0) :
    otDetail data hourlyDiff spec = [] := by
  unfold otDetail
  dsimp only
  rw [if_neg h]

/-- C10: whenever the range segments to N ≥ 1 periods, `calculate`
returns exactly N summary rows, one per period; and when the salary
delta is ≤ 0 and every parsed overtime quantity is ≤ 0, the details
sequence is empty while every summary row keeps all its currency and
quantity fields at their zero defaults — so summaries can be non-empty
while details are empty. -/
theorem C10_summary_per_period (data : InputRecord) (t : PayrollType)
    (ps : List Period) (ds : List DetailLine) (ss : List SummaryRow)
    (hps : getPeriods data.FECHA_INICIO data.FECHA_FIN t = some ps)
    (hne : ¬ps = [])
    (hcalc : calculateRetroactive data t = some (ds, ss)) :
    ss.length = ps.length ∧
    ((data.SUELDO_NUEVO.getD 0 - data.SUELDO_ANTERIOR.getD 0 ≤ 0 ∧
      data.HED_CANTIDAD.getD 0 ≤ 0 ∧ data.HEN_CANTIDAD.getD 0 ≤ 0 ∧
      data.HEFD_CANTIDAD.getD 0 ≤ 0 ∧ data.HEFN_CANTIDAD.getD 0 ≤ 0) →
      ds = [] ∧ ∀ s ∈ ss,
        s.salario = 0 ∧ s.hedValor = 0 ∧ s.hedCantidad = 0 ∧
        s.henValor = 0 ∧ s.henCantidad = 0 ∧ s.hefdValor = 0 ∧
        s.hefdCantidad = 0 ∧ s.hefnValor = 0 ∧ s.hefnCantidad = 0) := by
  constructor
  · have he := calculateRetroactive_eq data t ps hps hne
    have hcalc2 := hcalc
    rw [he] at hcalc2
    have hpair := Option.some.inj hcalc2
    have hss : ss = (calcRows data
        ((data.SUELDO_NUEVO.getD 0 - data.SUELDO_ANTERIOR.getD 0) *
          (if t = PayrollType.mensual then 1 else 1/2))
        ((data.SUELDO_NUEVO.getD 0 - data.SUELDO_ANTERIOR.getD 0) / 240)
        true ps).2 := congrArg Prod.snd hpair.symm
    rw [hss, calcRows_summaries_len]
  · rintro ⟨hd0, h1, h2, h3, h4⟩
    obtain ⟨p1, rest, rfl⟩ : ∃ p1 rest, ps = p1 :: rest := by
      cases ps with
      | nil => exact absurd rfl hne
      | cons a l => exact ⟨a, l, rfl⟩
    obtain ⟨hds, hss⟩ := calc_components data t p1 rest ds ss hps hcalc
    have hfac : (0:ℚ) ≤ (if t = PayrollType.mensual then (1:ℚ) else 1/2) := by
      split_ifs <;> norm_num
    have hrp : ¬0 < (data.SUELDO_NUEVO.getD 0 - data.SUELDO_ANTERIOR.getD 0) *
        (if t = PayrollType.mensual then 1 else 1/2) :=
      not_lt.mpr (mul_nonpos_iff.mpr (Or.inr ⟨hd0, hfac⟩))
    have hsdnil : ∀ p, salaryDetails data
        ((data.SUELDO_NUEVO.getD 0 - data.SUELDO_ANTERIOR.getD 0) *
          (if t = PayrollType.mensual then 1 else 1/2)) p = [] := by
      intro p
      unfold salaryDetails
      rw [if_neg hrp]
    have hot : (otMapping.map (otDetail data
        ((data.SUELDO_NUEVO.getD 0 - data.SUELDO_ANTERIOR.getD 0) / 240))).flatten
        = [] := by
      simp only [otMapping, List.map_cons, List.map_nil, List.flatten_cons,
        List.flatten_nil]
      rw [otDetail_nil _ _ _ (not_lt.mpr h1), otDetail_nil _ _ _ (not_lt.mpr h2),
        otDetail_nil _ _ _ (not_lt.mpr h3), otDetail_nil _ _ _ (not_lt.mpr h4)]
      rfl
    have hrest : ((rest.map (salaryDetails data
        ((data.SUELDO_NUEVO.getD 0 - data.SUELDO_ANTERIOR.getD 0) *
          (if t = PayrollType.mensual then 1 else 1/2)))).flatten) = [] := by
      rw [List.flatten_eq_nil_iff]
      intro l hl
      obtain ⟨p, _, rfl⟩ := List.mem_map.mp hl
      exact hsdnil p
    constructor
    · rw [hds, hsdnil p1, hot, hrest]
      rfl
    · intro s hs
      rw [hss] at hs
      have hchan : ∀ (q : ℚ) (f : ℚ),
          q ≤ 0 → ¬(0 < q ∧
            0 < (data.SUELDO_NUEVO.getD 0 - data.SUELDO_ANTERIOR.getD 0) / 240 * f * q) :=
        fun q f hq hcon => absurd hcon.1 (not_lt.mpr hq)
      rcases List.mem_cons.mp hs with rfl | hs
      · refine ⟨?_, ?_, ?_, ?_, ?_, ?_, ?_, ?_, ?_⟩
        · rw [otFold_salario, salarySummary_salario, if_neg hrp]
        · rw [otFold_hedValor, if_neg (hchan _ _ h1)]
          exact (salarySummary_ot_zero data _ p1).1
        · rw [otFold_hedCantidad, if_neg (hchan _ _ h1)]
          exact (salarySummary_ot_zero data _ p1).2.1
        · rw [otFold_henValor, if_neg (hchan _ _ h2)]
          exact (salarySummary_ot_zero data _ p1).2.2.1
        · rw [otFold_henCantidad, if_neg (hchan _ _ h2)]
          exact (salarySummary_ot_zero data _ p1).2.2.2.1
        · rw [otFold_hefdValor, if_neg (hchan _ _ h3)]
          exact (salarySummary_ot_zero data _ p1).2.2.2.2.1
        · rw [otFold_hefdCantidad, if_neg (hchan _ _ h3)]
          exact (salarySummary_ot_zero data _ p1).2.2.2.2.2.1
        · rw [otFold_hefnValor, if_neg (hchan _ _ h4)]
          exact (salarySummary_ot_zero data _ p1).2.2.2.2.2.2.1
        · rw [otFold_hefnCantidad, if_neg (hchan _ _ h4)]
          exact (salarySummary_ot_zero data _ p1).2.2.2.2.2.2.2
      · obtain ⟨p, _, rfl⟩ := List.mem_map.mp hs
        have hz := salarySummary_ot_zero data
          ((data.SUELDO_NUEVO.getD 0 - data.SUELDO_ANTERIOR.getD 0) *
            (if t = PayrollType.mensual then 1 else 1/2)) p
        exact ⟨by rw [salarySummary_salario, if_neg hrp], hz.1, hz.2.1,
          hz.2.2.1, hz.2.2.2.1, hz.2.2.2.2.1, hz.2.2.2.2.2.1,
          hz.2.2.2.2.2.2.1, hz.2.2.2.2.2.2.2⟩

set_option maxRecDepth 8000 in
theorem C10_summary_per_period_witness :
    ([{ periodo := "01/01/2024", nombreCompleto := "N",
        numeroDocumento := "1", codigoFicha := "", salario := 0,
        hefdValor := 0, hefdCantidad := 0, hedValor := 0, hedCantidad := 0,
        henValor := 0, henCantidad := 0, hefnValor := 0, hefnCantidad := 0 }]
      : List SummaryRow).length = [Period.mk 2024 1 1 31].length ∧
    ([] : List DetailLine) = [] := by
  have h := C10_summary_per_period
    { CEDULA := "1", NOMBRE := "N", CODIGO_FICHA_COLABORADOR := none,
      SUELDO_ANTERIOR := some 3, SUELDO_NUEVO := some 1,
      FECHA_INICIO := "2024-01-01", FECHA_FIN := "2024-01-31",
      HED_CANTIDAD := none, HEN_CANTIDAD := none,
      HEFD_CANTIDAD := none, HEFN_CANTIDAD := none, RN_CANTIDAD := none }
    PayrollType.mensual [⟨2024, 1, 1, 31⟩] []
    [{ periodo := "01/01/2024", nombreCompleto := "N",
       numeroDocumento := "1", codigoFicha := "", salario := 0,
       hefdValor := 0, hefdCantidad := 0, hedValor := 0, hedCantidad := 0,
       henValor := 0, henCantidad := 0, hefnValor := 0, hefnCantidad := 0 }]
    (by with_unfolding_all decide) (by simp)
    (by with_unfolding_all decide)
  exact ⟨h.1, (h.2 (by with_unfolding_all decide)).1⟩

set_option maxRecDepth 8000 in
/-- C1: for every input record and cycle whose range segments to a
non-empty period list, each of the four overtime categories with parsed
worked quantity > 0 and positive computed amount emits exactly one
detail line, anywhere in the output, with amount
`round((newSalary - previousSalary) / 240 × factor × quantity)` and the
factors Day = 1.25, Night = 1.75, HolidayDay = 2.05,
HolidayNight = 2.55; the emission happens only under that positivity
condition, at most once per category per call, and its summary
amount/quantity columns are set only on the first period's summary row,
never on later rows. -/
theorem C1_overtime_once_first_period (data : InputRecord) (t : PayrollType)
    (ps : List Period) (ds : List DetailLine) (ss : List SummaryRow)
    (hps : getPeriods data.FECHA_INICIO data.FECHA_FIN t = some ps)
    (hne : ¬ps = [])
    (hcalc : calculateRetroactive data t = some (ds, ss)) :
    otEmission data ds ss data.HED_CANTIDAD (5/4) "Retroactivo HE diurna"
      (fun s => s.hedValor) (fun s => s.hedCantidad) ∧
    otEmission data ds ss data.HEN_CANTIDAD (7/4) "Retroactivo HE nocturna"
      (fun s => s.henValor) (fun s => s.henCantidad) ∧
    otEmission data ds ss data.HEFD_CANTIDAD (41/20) "Retroactivo HE festiva diurna"
      (fun s => s.hefdValor) (fun s => s.hefdCantidad) ∧
    otEmission data ds ss data.HEFN_CANTIDAD (51/20) "Retroactivo HE festiva nocturna"
      (fun s => s.hefnValor) (fun s => s.hefnCantidad) := by
  obtain ⟨p1, rest, rfl⟩ : ∃ p1 rest, ps = p1 :: rest := by
    cases ps with
    | nil => exact absurd rfl hne
    | cons a l => exact ⟨a, l, rfl⟩
  obtain ⟨hds, hss⟩ := calc_components data t p1 rest ds ss hps hcalc
  have hotJoin : ((otMapping.map (otDetail data
      ((data.SUELDO_NUEVO.getD 0 - data.SUELDO_ANTERIOR.getD 0) / 240))).flatten)
      = otDetail data ((data.SUELDO_NUEVO.getD 0 - data.SUELDO_ANTERIOR.getD 0) / 240) hedSpec ++
        (otDetail data ((data.SUELDO_NUEVO.getD 0 - data.SUELDO_ANTERIOR.getD 0) / 240) henSpec ++
          (otDetail data ((data.SUELDO_NUEVO.getD 0 - data.SUELDO_ANTERIOR.getD 0) / 240) hefdSpec ++
            otDetail data ((data.SUELDO_NUEVO.getD 0 - data.SUELDO_ANTERIOR.getD 0) / 240) hefnSpec)) := by
    simp [otMapping]
  have hflt_hed : ds.filter (isConcept "Retroactivo HE diurna") =
      otDetail data ((data.SUELDO_NUEVO.getD 0 - data.SUELDO_ANTERIOR.getD 0) / 240)
        hedSpec := by
    rw [hds, List.filter_append, List.filter_append,
      filter_salaryDetails_ne _ _ _ _ (by decide),
      filter_salary_flatten_ne _ _ _ _ (by decide), hotJoin,
      List.filter_append, List.filter_append, List.filter_append,
      filter_otDetail_eqlabel data _ hedSpec "Retroactivo HE diurna" rfl,
      filter_otDetail_ne data _ henSpec _ (by decide),
      filter_otDetail_ne data _ hefdSpec _ (by decide),
      filter_otDetail_ne data _ hefnSpec _ (by decide)]
    simp
  have hflt_hen : ds.filter (isConcept "Retroactivo HE nocturna") =
      otDetail data ((data.SUELDO_NUEVO.getD 0 - data.SUELDO_ANTERIOR.getD 0) / 240)
        henSpec := by
    rw [hds, List.filter_append, List.filter_append,
      filter_salaryDetails_ne _ _ _ _ (by decide),
      filter_salary_flatten_ne _ _ _ _ (by decide), hotJoin,
      List.filter_append, List.filter_append, List.filter_append,
      filter_otDetail_eqlabel data _ henSpec "Retroactivo HE nocturna" rfl,
      filter_otDetail_ne data _ hedSpec _ (by decide),
      filter_otDetail_ne data _ hefdSpec _ (by decide),
      filter_otDetail_ne data _ hefnSpec _ (by decide)]
    simp
  have hflt_hefd : ds.filter (isConcept "Retroactivo HE festiva diurna") =
      otDetail data ((data.SUELDO_NUEVO.getD 0 - data.SUELDO_ANTERIOR.getD 0) / 240)
        hefdSpec := by
    rw [hds, List.filter_append, List.filter_append,
      filter_salaryDetails_ne _ _ _ _ (by decide),
      filter_salary_flatten_ne _ _ _ _ (by decide), hotJoin,
      List.filter_append, List.filter_append, List.filter_append,
      filter_otDetail_eqlabel data _ hefdSpec "Retroactivo HE festiva diurna" rfl,
      filter_otDetail_ne data _ hedSpec _ (by decide),
      filter_otDetail_ne data _ henSpec _ (by decide),
      filter_otDetail_ne data _ hefnSpec _ (by decide)]
    simp
  have hflt_hefn : ds.filter (isConcept "Retroactivo HE festiva nocturna") =
      otDetail data ((data.SUELDO_NUEVO.getD 0 - data.SUELDO_ANTERIOR.getD 0) / 240)
        hefnSpec := by
    rw [hds, List.filter_append, List.filter_append,
      filter_salaryDetails_ne _ _ _ _ (by decide),
      filter_salary_flatten_ne _ _ _ _ (by decide), hotJoin,
      List.filter_append, List.filter_append, List.filter_append,
      filter_otDetail_eqlabel data _ hefnSpec "Retroactivo HE festiva nocturna" rfl,
      filter_otDetail_ne data _ hedSpec _ (by decide),
      filter_otDetail_ne data _ henSpec _ (by decide),
      filter_otDetail_ne data _ hefdSpec _ (by decide)]
    simp
  have hz1_hed := (salarySummary_ot_zero data
    ((data.SUELDO_NUEVO.getD 0 - data.SUELDO_ANTERIOR.getD 0) *
      (if t = PayrollType.mensual then 1 else 1/2)) p1).1
  have hz2_hed := (salarySummary_ot_zero data
    ((data.SUELDO_NUEVO.getD 0 - data.SUELDO_ANTERIOR.getD 0) *
      (if t = PayrollType.mensual then 1 else 1/2)) p1).2.1
  have hztail_hed : ∀ p : Period,
      (salarySummary data
        ((data.SUELDO_NUEVO.getD 0 - data.SUELDO_ANTERIOR.getD 0) *
          (if t = PayrollType.mensual then 1 else 1/2)) p).hedValor = 0 ∧
      (salarySummary data
        ((data.SUELDO_NUEVO.getD 0 - data.SUELDO_ANTERIOR.getD 0) *
          (if t = PayrollType.mensual then 1 else 1/2)) p).hedCantidad = 0 := by
    intro p
    have hz := salarySummary_ot_zero data
      ((data.SUELDO_NUEVO.getD 0 - data.SUELDO_ANTERIOR.getD 0) *
        (if t = PayrollType.mensual then 1 else 1/2)) p
    exact ⟨hz.1, hz.2.1⟩
  have hz1_hen := (salarySummary_ot_zero data
    ((data.SUELDO_NUEVO.getD 0 - data.SUELDO_ANTERIOR.getD 0) *
      (if t = PayrollType.mensual then 1 else 1/2)) p1).2.2.1
  have hz2_hen := (salarySummary_ot_zero data
    ((data.SUELDO_NUEVO.getD 0 - data.SUELDO_ANTERIOR.getD 0) *
      (if t = PayrollType.mensual then 1 else 1/2)) p1).2.2.2.1
  have hztail_hen : ∀ p : Period,
      (salarySummary data
        ((data.SUELDO_NUEVO.getD 0 - data.SUELDO_ANTERIOR.getD 0) *
          (if t = PayrollType.mensual then 1 else 1/2)) p).henValor = 0 ∧
      (salarySummary data
        ((data.SUELDO_NUEVO.getD 0 - data.SUELDO_ANTERIOR.getD 0) *
          (if t = PayrollType.mensual then 1 else 1/2)) p).henCantidad = 0 := by
    intro p
    have hz := salarySummary_ot_zero data
      ((data.SUELDO_NUEVO.getD 0 - data.SUELDO_ANTERIOR.getD 0) *
        (if t = PayrollType.mensual then 1 else 1/2)) p
    exact ⟨hz.2.2.1, hz.2.2.2.1⟩
  have hz1_hefd := (salarySummary_ot_zero data
    ((data.SUELDO_NUEVO.getD 0 - data.SUELDO_ANTERIOR.getD 0) *
      (if t = PayrollType.mensual then 1 else 1/2)) p1).2.2.2.2.1
  have hz2_hefd := (salarySummary_ot_zero data
    ((data.SUELDO_NUEVO.getD 0 - data.SUELDO_ANTERIOR.getD 0) *
      (if t = PayrollType.mensual then 1 else 1/2)) p1).2.2.2.2.2.1
  have hztail_hefd : ∀ p : Period,
      (salarySummary data
        ((data.SUELDO_NUEVO.getD 0 - data.SUELDO_ANTERIOR.getD 0) *
          (if t = PayrollType.mensual then 1 else 1/2)) p).hefdValor = 0 ∧
      (salarySummary data
        ((data.SUELDO_NUEVO.getD 0 - data.SUELDO_ANTERIOR.getD 0) *
          (if t = PayrollType.mensual then 1 else 1/2)) p).hefdCantidad = 0 := by
    intro p
    have hz := salarySummary_ot_zero data
      ((data.SUELDO_NUEVO.getD 0 - data.SUELDO_ANTERIOR.getD 0) *
        (if t = PayrollType.mensual then 1 else 1/2)) p
    exact ⟨hz.2.2.2.2.1, hz.2.2.2.2.2.1⟩
  have hz1_hefn := (salarySummary_ot_zero data
    ((data.SUELDO_NUEVO.getD 0 - data.SUELDO_ANTERIOR.getD 0) *
      (if t = PayrollType.mensual then 1 else 1/2)) p1).2.2.2.2.2.2.1
  have hz2_hefn := (salarySummary_ot_zero data
    ((data.SUELDO_NUEVO.getD 0 - data.SUELDO_ANTERIOR.getD 0) *
      (if t = PayrollType.mensual then 1 else 1/2)) p1).2.2.2.2.2.2.2
  have hztail_hefn : ∀ p : Period,
      (salarySummary data
        ((data.SUELDO_NUEVO.getD 0 - data.SUELDO_ANTERIOR.getD 0) *
          (if t = PayrollType.mensual then 1 else 1/2)) p).hefnValor = 0 ∧
      (salarySummary data
        ((data.SUELDO_NUEVO.getD 0 - data.SUELDO_ANTERIOR.getD 0) *
          (if t = PayrollType.mensual then 1 else 1/2)) p).hefnCantidad = 0 := by
    intro p
    have hz := salarySummary_ot_zero data
      ((data.SUELDO_NUEVO.getD 0 - data.SUELDO_ANTERIOR.getD 0) *
        (if t = PayrollType.mensual then 1 else 1/2)) p
    exact ⟨hz.2.2.2.2.2.2.1, hz.2.2.2.2.2.2.2⟩
  refine ⟨?_, ?_, ?_, ?_⟩ <;> simp only [otEmission]
  refine ⟨?_, ?_, ?_⟩
  · rw [hflt_hed, otDetail_eq_if]
    simp only [hedSpec, FACTORS]
  · intro s hs
    rw [hss, List.head?_cons, Option.mem_def, Option.some.injEq] at hs
    subst hs
    rw [otFold_hedValor, otFold_hedCantidad]
    simp only [FACTORS]
    rw [hz1_hed, hz2_hed]
    exact ⟨rfl, rfl⟩
  · intro s hs
    rw [hss, List.tail_cons] at hs
    obtain ⟨p, _, rfl⟩ := List.mem_map.mp hs
    exact hztail_hed p
  refine ⟨?_, ?_, ?_⟩
  · rw [hflt_hen, otDetail_eq_if]
    simp only [henSpec, FACTORS]
  · intro s hs
    rw [hss, List.head?_cons, Option.mem_def, Option.some.injEq] at hs
    subst hs
    rw [otFold_henValor, otFold_henCantidad]
    simp only [FACTORS]
    rw [hz1_hen, hz2_hen]
    exact ⟨rfl, rfl⟩
  · intro s hs
    rw [hss, List.tail_cons] at hs
    obtain ⟨p, _, rfl⟩ := List.mem_map.mp hs
    exact hztail_hen p
  refine ⟨?_, ?_, ?_⟩
  · rw [hflt_hefd, otDetail_eq_if]
    simp only [hefdSpec, FACTORS]
  · intro s hs
    rw [hss, List.head?_cons, Option.mem_def, Option.some.injEq] at hs
    subst hs
    rw [otFold_hefdValor, otFold_hefdCantidad]
    simp only [FACTORS]
    rw [hz1_hefd, hz2_hefd]
    exact ⟨rfl, rfl⟩
  · intro s hs
    rw [hss, List.tail_cons] at hs
    obtain ⟨p, _, rfl⟩ := List.mem_map.mp hs
    exact hztail_hefd p
  refine ⟨?_, ?_, ?_⟩
  · rw [hflt_hefn, otDetail_eq_if]
    simp only [hefnSpec, FACTORS]
  · intro s hs
    rw [hss, List.head?_cons, Option.mem_def, Option.some.injEq] at hs
    subst hs
    rw [otFold_hefnValor, otFold_hefnCantidad]
    simp only [FACTORS]
    rw [hz1_hefn, hz2_hefn]
    exact ⟨rfl, rfl⟩
  · intro s hs
    rw [hss, List.tail_cons] at hs
    obtain ⟨p, _, rfl⟩ := List.mem_map.mp hs
    exact hztail_hefn p

set_option maxRecDepth 8000 in
theorem C1_overtime_once_first_period_witness :
    otEmission
      { CEDULA := "1", NOMBRE := "N", CODIGO_FICHA_COLABORADOR := none,
        SUELDO_ANTERIOR := none, SUELDO_NUEVO := some 240,
        FECHA_INICIO := "2024-01-01", FECHA_FIN := "2024-01-31",
        HED_CANTIDAD := some 2, HEN_CANTIDAD := none,
        HEFD_CANTIDAD := none, HEFN_CANTIDAD := none, RN_CANTIDAD := none }
      [{ CEDULA := "1", NOMBRE := "N", CONCEPTO := "Retroactivo sueldo",
         DETALLE := "Periodo 01/01/2024", VALOR_A_PAGAR := 240 },
       { CEDULA := "1", NOMBRE := "N", CONCEPTO := "Retroactivo HE diurna",
         DETALLE := "2 horas", VALOR_A_PAGAR := 3 }]
      [{ periodo := "01/01/2024", nombreCompleto := "N",
         numeroDocumento := "1", codigoFicha := "", salario := 240,
         hefdValor := 0, hefdCantidad := 0, hedValor := 3, hedCantidad := 2,
         henValor := 0, henCantidad := 0, hefnValor := 0, hefnCantidad := 0 }]
      (some 2) (5/4) "Retroactivo HE diurna"
      (fun s => s.hedValor) (fun s => s.hedCantidad) :=
  (C1_overtime_once_first_period
    { CEDULA := "1", NOMBRE := "N", CODIGO_FICHA_COLABORADOR := none,
      SUELDO_ANTERIOR := none, SUELDO_NUEVO := some 240,
      FECHA_INICIO := "2024-01-01", FECHA_FIN := "2024-01-31",
      HED_CANTIDAD := some 2, HEN_CANTIDAD := none,
      HEFD_CANTIDAD := none, HEFN_CANTIDAD := none, RN_CANTIDAD := none }
    PayrollType.mensual [⟨2024, 1, 1, 31⟩]
    [{ CEDULA := "1", NOMBRE := "N", CONCEPTO := "Retroactivo sueldo",
       DETALLE := "Periodo 01/01/2024", VALOR_A_PAGAR := 240 },
     { CEDULA := "1", NOMBRE := "N", CONCEPTO := "Retroactivo HE diurna",
       DETALLE := "2 horas", VALOR_A_PAGAR := 3 }]
    [{ periodo := "01/01/2024", nombreCompleto := "N",
       numeroDocumento := "1", codigoFicha := "", salario := 240,
       hefdValor := 0, hefdCantidad := 0, hedValor := 3, hedCantidad := 2,
       henValor := 0, henCantidad := 0, hefnValor := 0, hefnCantidad := 0 }]
    (by with_unfolding_all decide) (by simp)
    (by with_unfolding_all decide)).1
